import Mathlib

/-!
# LSTM cell kernel (`paddle/operators/math/detail/lstm_kernel.h`)

A shallow embedding of the single-timestep LSTM kernels `forward::lstm` and
`backward::lstm`, in their scalar and their `__m256` form, together with the
properties of the kernel's specification that the code satisfies (or not).

The C++ call operators take all their arguments by reference and assign to some
of them.  The embedding passes the whole argument pack as a record and returns
the pack as it stands after the call, one record update per C++ statement.

The element type `T` of the template is a type `α` carrying `+` and `*`; the
functions `activation` (two overloads: value form and gradient form, for `T` and
for `__m256`) come from `activation_functions.h`, which is not part of the
sources at hand, so they are parameters of the embedded kernels.
-/

namespace paddle.operators.math.detail

/-- Modelled from the spec: the closed catalogue of activation selectors
(`activation_mode_t` is declared in `activation_functions.h`, which is not among
the sources; the spec gives the catalogue as identity, sigmoid, tanh, relu). -/
inductive activation_mode_t where
  | identity
  | sigmoid
  | tanh
  | relu
  deriving DecidableEq, Repr

/-- The reference arguments of `forward::lstm::operator()`, in declaration order. -/
structure ForwardArgs (α : Type) where
  value_in : α
  value_ig : α
  value_fg : α
  value_og : α
  prev_state : α
  state : α
  state_atv : α
  output : α
  checkI : α
  checkF : α
  checkO : α
  deriving DecidableEq, Repr

/-- The reference arguments of `backward::lstm::operator()`, in declaration order. -/
structure BackwardArgs (α : Type) where
  value_in : α
  value_ig : α
  value_fg : α
  value_og : α
  grad_in : α
  grad_ig : α
  grad_fg : α
  grad_og : α
  prev_state : α
  prev_state_grad : α
  state : α
  state_grad : α
  state_atv : α
  output_grad : α
  checkI : α
  checkF : α
  checkO : α
  checkIGrad : α
  checkFGrad : α
  checkOGrad : α
  deriving DecidableEq, Repr

/-- The `__m256` register: eight lanes. The source holds `float` in them; the
lane type is left open so that the lane arithmetic can be interpreted. -/
abbrev m256 (α : Type) : Type := Fin 8 → α

/-- The intrinsic `_mm256_add_ps`: lane-wise sum. -/
def mm256_add_ps {α : Type} [Add α] (a b : m256 α) : m256 α :=
  fun i => a i + b i

/-- The intrinsic `_mm256_mul_ps`: lane-wise product. -/
def mm256_mul_ps {α : Type} [Mul α] (a b : m256 α) : m256 α :=
  fun i => a i * b i

/-- Lane `i` of a pack of forward `__m256` arguments. -/
def ForwardArgs.lane {α : Type} (a : ForwardArgs (m256 α)) (i : Fin 8) : ForwardArgs α where
  value_in := a.value_in i
  value_ig := a.value_ig i
  value_fg := a.value_fg i
  value_og := a.value_og i
  prev_state := a.prev_state i
  state := a.state i
  state_atv := a.state_atv i
  output := a.output i
  checkI := a.checkI i
  checkF := a.checkF i
  checkO := a.checkO i

/-- Lane `i` of a pack of backward `__m256` arguments. -/
def BackwardArgs.lane {α : Type} (a : BackwardArgs (m256 α)) (i : Fin 8) : BackwardArgs α where
  value_in := a.value_in i
  value_ig := a.value_ig i
  value_fg := a.value_fg i
  value_og := a.value_og i
  grad_in := a.grad_in i
  grad_ig := a.grad_ig i
  grad_fg := a.grad_fg i
  grad_og := a.grad_og i
  prev_state := a.prev_state i
  prev_state_grad := a.prev_state_grad i
  state := a.state i
  state_grad := a.state_grad i
  state_atv := a.state_atv i
  output_grad := a.output_grad i
  checkI := a.checkI i
  checkF := a.checkF i
  checkO := a.checkO i
  checkIGrad := a.checkIGrad i
  checkFGrad := a.checkFGrad i
  checkOGrad := a.checkOGrad i

namespace forward

/-- Scalar `forward::lstm<T>::operator()` (lines 30-43): seven assignments. -/
def lstm {α : Type} [Add α] [Mul α] (activation : α → activation_mode_t → α)
    (a : ForwardArgs α) (active_node active_gate active_state : activation_mode_t) :
    ForwardArgs α :=
  let a := { a with value_in := activation a.value_in active_node }
  let a := { a with value_ig := activation (a.value_ig + a.prev_state * a.checkI) active_gate }
  let a := { a with value_fg := activation (a.value_fg + a.prev_state * a.checkF) active_gate }
  let a := { a with state := a.value_in * a.value_ig + a.prev_state * a.value_fg }
  let a := { a with value_og := activation (a.value_og + a.state * a.checkO) active_gate }
  let a := { a with state_atv := activation a.state active_state }
  let a := { a with output := a.value_og * a.state_atv }
  a

/-- The `__m256` overload of `forward::lstm<T>::operator()` (lines 51-72). -/
def lstm_m256 {α : Type} [Add α] [Mul α] (activation : m256 α → activation_mode_t → m256 α)
    (a : ForwardArgs (m256 α)) (active_node active_gate active_state : activation_mode_t) :
    ForwardArgs (m256 α) :=
  let a := { a with value_in := activation a.value_in active_node }
  let a := { a with
    value_ig := activation (mm256_add_ps a.value_ig (mm256_mul_ps a.prev_state a.checkI)) active_gate }
  let a := { a with
    value_fg := activation (mm256_add_ps a.value_fg (mm256_mul_ps a.prev_state a.checkF)) active_gate }
  let a := { a with
    state := mm256_add_ps (mm256_mul_ps a.value_in a.value_ig) (mm256_mul_ps a.prev_state a.value_fg) }
  let a := { a with
    value_og := activation (mm256_add_ps a.value_og (mm256_mul_ps a.state a.checkO)) active_gate }
  let a := { a with state_atv := activation a.state active_state }
  let a := { a with output := mm256_mul_ps a.value_og a.state_atv }
  a

end forward

namespace backward

/-- Scalar `backward::lstm<T>::operator()` (lines 84-104): nine assignments, the
second one a `+=` on `state_grad`. -/
def lstm {α : Type} [Add α] [Mul α] (activation : α → α → activation_mode_t → α)
    (a : BackwardArgs α) (active_node active_gate active_state : activation_mode_t) :
    BackwardArgs α :=
  let a := { a with grad_og := activation (a.output_grad * a.state_atv) a.value_og active_gate }
  let a := { a with state_grad := a.state_grad +
    (activation (a.output_grad * a.value_og) a.state_atv active_state + a.grad_og * a.checkO) }
  let a := { a with grad_in := activation (a.state_grad * a.value_ig) a.value_in active_node }
  let a := { a with grad_ig := activation (a.state_grad * a.value_in) a.value_ig active_gate }
  let a := { a with grad_fg := activation (a.state_grad * a.prev_state) a.value_fg active_gate }
  let a := { a with
    prev_state_grad := a.grad_ig * a.checkI + a.grad_fg * a.checkF + a.state_grad * a.value_fg }
  let a := { a with checkIGrad := a.grad_ig * a.prev_state }
  let a := { a with checkFGrad := a.grad_fg * a.prev_state }
  let a := { a with checkOGrad := a.grad_og * a.state }
  a

/-- The `__m256` overload of `backward::lstm<T>::operator()` (lines 111-138):
`state_grad` and `prev_state_grad` are each assigned twice. -/
def lstm_m256 {α : Type} [Add α] [Mul α]
    (activation : m256 α → m256 α → activation_mode_t → m256 α)
    (a : BackwardArgs (m256 α)) (active_node active_gate active_state : activation_mode_t) :
    BackwardArgs (m256 α) :=
  let a := { a with
    grad_og := activation (mm256_mul_ps a.output_grad a.state_atv) a.value_og active_gate }
  let a := { a with
    state_grad := mm256_add_ps (activation (mm256_mul_ps a.output_grad a.value_og) a.state_atv active_state)
        a.state_grad }
  let a := { a with state_grad := mm256_add_ps (mm256_mul_ps a.grad_og a.checkO) a.state_grad }
  let a := { a with
    grad_in := activation (mm256_mul_ps a.state_grad a.value_ig) a.value_in active_node }
  let a := { a with
    grad_ig := activation (mm256_mul_ps a.state_grad a.value_in) a.value_ig active_gate }
  let a := { a with
    grad_fg := activation (mm256_mul_ps a.state_grad a.prev_state) a.value_fg active_gate }
  let a := { a with
    prev_state_grad := mm256_add_ps (mm256_mul_ps a.grad_ig a.checkI) (mm256_mul_ps a.grad_fg a.checkF) }
  let a := { a with
    prev_state_grad := mm256_add_ps (mm256_mul_ps a.state_grad a.value_fg) a.prev_state_grad }
  let a := { a with checkIGrad := mm256_mul_ps a.grad_ig a.prev_state }
  let a := { a with checkFGrad := mm256_mul_ps a.grad_fg a.prev_state }
  let a := { a with checkOGrad := mm256_mul_ps a.grad_og a.state }
  a

end backward

/-- The argument pack a driver hands to the backward step after a forward step:
the forward-time quantities are those of `r` (the pack returned by the forward
step), followed by the output gradient and the incoming state-gradient
accumulator; the slots that the backward step only writes are those of `slots`. -/
def backwardArgsOf {α : Type} (r : ForwardArgs α) (output_grad state_grad : α)
    (slots : BackwardArgs α) : BackwardArgs α :=
  { slots with
    value_in := r.value_in
    value_ig := r.value_ig
    value_fg := r.value_fg
    value_og := r.value_og
    prev_state := r.prev_state
    state := r.state
    state_atv := r.state_atv
    output_grad := output_grad
    state_grad := state_grad
    checkI := r.checkI
    checkF := r.checkF
    checkO := r.checkO }

/-- Slope of the stand-in activation for each selector. -/
def slopeOf {α : Type} [Semiring α] : activation_mode_t → α
  | .identity => 1
  | .sigmoid => 2
  | .tanh => 3
  | .relu => 5

/-- A stand-in for the absent `activation(value, mode)`, used to evaluate the
kernels on concrete inputs: every selector is a linear map, the identity
selector being the identity map. -/
def linActivation {α : Type} [Semiring α] (x : α) (m : activation_mode_t) : α :=
  match m with
  | .identity => x
  | m => slopeOf m * x

/-- The derivative form matching `linActivation`: the gradient times the slope. -/
def linActivationGrad {α : Type} [Semiring α] (g _v : α) (m : activation_mode_t) : α :=
  match m with
  | .identity => g
  | m => g * slopeOf m

/-- Eight scalar forward packs loaded into `__m256` registers, pack `i` in lane `i`. -/
def ForwardArgs.ofLanes {α : Type} (f : Fin 8 → ForwardArgs α) : ForwardArgs (m256 α) where
  value_in := fun i => (f i).value_in
  value_ig := fun i => (f i).value_ig
  value_fg := fun i => (f i).value_fg
  value_og := fun i => (f i).value_og
  prev_state := fun i => (f i).prev_state
  state := fun i => (f i).state
  state_atv := fun i => (f i).state_atv
  output := fun i => (f i).output
  checkI := fun i => (f i).checkI
  checkF := fun i => (f i).checkF
  checkO := fun i => (f i).checkO

/-- Eight scalar backward packs loaded into `__m256` registers, pack `i` in lane `i`. -/
def BackwardArgs.ofLanes {α : Type} (f : Fin 8 → BackwardArgs α) : BackwardArgs (m256 α) where
  value_in := fun i => (f i).value_in
  value_ig := fun i => (f i).value_ig
  value_fg := fun i => (f i).value_fg
  value_og := fun i => (f i).value_og
  grad_in := fun i => (f i).grad_in
  grad_ig := fun i => (f i).grad_ig
  grad_fg := fun i => (f i).grad_fg
  grad_og := fun i => (f i).grad_og
  prev_state := fun i => (f i).prev_state
  prev_state_grad := fun i => (f i).prev_state_grad
  state := fun i => (f i).state
  state_grad := fun i => (f i).state_grad
  state_atv := fun i => (f i).state_atv
  output_grad := fun i => (f i).output_grad
  checkI := fun i => (f i).checkI
  checkF := fun i => (f i).checkF
  checkO := fun i => (f i).checkO
  checkIGrad := fun i => (f i).checkIGrad
  checkFGrad := fun i => (f i).checkFGrad
  checkOGrad := fun i => (f i).checkOGrad

/-- A scalar activation applied to each lane: the shape the `__m256` overloads of
`activation` are assumed to have. -/
def lanewise {α : Type} (activation : α → activation_mode_t → α) :
    m256 α → activation_mode_t → m256 α :=
  fun v m i => activation (v i) m

/-- A scalar derivative form applied to each lane. -/
def lanewiseGrad {α : Type} (activation : α → α → activation_mode_t → α) :
    m256 α → m256 α → activation_mode_t → m256 α :=
  fun g v m i => activation (g i) (v i) m

/-- Rounding of the toy number format below: an integer of magnitude 8 or more is
rounded down to an even integer. -/
def roundEven (z : ℤ) : ℤ :=
  if z.natAbs < 8 then z else 2 * (z / 2)

/-- A toy rounded number format, standing for floating point: integers whose sums
and products are rounded by `roundEven`. Its addition is commutative and not
associative, as the addition of `float` is. -/
structure RoundedInt where
  val : ℤ
  deriving DecidableEq, Repr

instance : Add RoundedInt where
  add a b := ⟨roundEven (a.val + b.val)⟩

instance : Mul RoundedInt where
  mul a b := ⟨roundEven (a.val * b.val)⟩

instance : AddCommMagma RoundedInt where
  add_comm a b := by
    show RoundedInt.mk (roundEven (a.val + b.val)) = RoundedInt.mk (roundEven (b.val + a.val))
    rw [Int.add_comm]

/-- A toy model of the special values of IEEE 754 arithmetic, standing for `float`:
the finite values are the integers of magnitude at most 100, next to the two
infinities (`inf true` is the negative one) and NaN. -/
inductive ToyFloat where
  | fin (z : ℤ)
  | inf (negative : Bool)
  | nan
  deriving DecidableEq, Repr

/-- An exact result brought back into `ToyFloat`: a value beyond the largest
finite magnitude overflows to the infinity of its sign. -/
def ToyFloat.ofExact (z : ℤ) : ToyFloat :=
  if 100 < z then .inf false else if z < -100 then .inf true else .fin z

/-- Addition with the IEEE 754 rules for special values: NaN propagates, the sum
of opposite infinities is NaN, a finite sum may overflow. -/
def ToyFloat.add : ToyFloat → ToyFloat → ToyFloat
  | .nan, _ => .nan
  | _, .nan => .nan
  | .inf s, .inf t => if s = t then .inf s else .nan
  | .inf s, .fin _ => .inf s
  | .fin _, .inf t => .inf t
  | .fin x, .fin y => ToyFloat.ofExact (x + y)

/-- Multiplication with the IEEE 754 rules for special values: NaN propagates,
infinity times zero is NaN, a finite product may overflow. -/
def ToyFloat.mul : ToyFloat → ToyFloat → ToyFloat
  | .nan, _ => .nan
  | _, .nan => .nan
  | .inf s, .inf t => .inf (xor s t)
  | .inf s, .fin y => if y = 0 then .nan else .inf (xor s (decide (y < 0)))
  | .fin x, .inf t => if x = 0 then .nan else .inf (xor (decide (x < 0)) t)
  | .fin x, .fin y => ToyFloat.ofExact (x * y)

instance : Add ToyFloat where
  add := ToyFloat.add

instance : Mul ToyFloat where
  mul := ToyFloat.mul

instance : Zero ToyFloat where
  zero := .fin 0

/-- A stand-in for the absent `activation(value, mode)` on a type with no
numerals: every selector is the identity map. -/
def idActivation {α : Type} (x : α) (_m : activation_mode_t) : α := x

/-- The derivative form matching `idActivation`: the gradient passes through. -/
def idActivationGrad {α : Type} (g _v : α) (_m : activation_mode_t) : α := g

/-- The nine results of the backward step, in the order `grad_in`, `grad_ig`,
`grad_fg`, `grad_og`, `state_grad`, `prev_state_grad`, `checkIGrad`,
`checkFGrad`, `checkOGrad`. -/
def BackwardArgs.results {α : Type} (r : BackwardArgs α) : List α :=
  [r.grad_in, r.grad_ig, r.grad_fg, r.grad_og, r.state_grad, r.prev_state_grad,
    r.checkIGrad, r.checkFGrad, r.checkOGrad]

/-- The element types the kernel templates can be instantiated at, as far as
`std::is_same<T, float>` tells them apart: `float`, `double`, or any other type
(numbered). -/
inductive ElemType where
  | float
  | double
  | other (n : Nat)
  deriving DecidableEq, Repr

/-- The value `std::is_same<T, float>::value`. -/
def is_same_float (T : ElemType) : Bool :=
  decide (T = ElemType.float)

/-- The static member `forward::lstm<T>::avx` (lines 44-50) as the preprocessor
leaves it: not declared when `__NVCC__` is defined, `false` when `__AVX__` is
not defined, `std::is_same<T, float>::value` otherwise. -/
def forward.lstm.avx (defined_NVCC defined_AVX : Bool) (T : ElemType) : Option Bool :=
  if !defined_NVCC then
    if !defined_AVX then some false
    else some (is_same_float T)
  else none

/-- The static member `backward::lstm<T>::avx` (lines 105-110), as the
preprocessor leaves it. -/
def backward.lstm.avx (defined_NVCC defined_AVX : Bool) (T : ElemType) : Option Bool :=
  if !defined_NVCC then
    if !defined_AVX then some false
    else some (is_same_float T)
  else none

/-! ## Scalar steps: the formulas -/

/-- C1. For every argument pack and every choice of selectors the scalar forward step
returns: `value_in' = activation(value_in, node)`,
`value_ig' = activation(value_ig + prev_state*checkI, gate)`,
`value_fg' = activation(value_fg + prev_state*checkF, gate)`,
`state = value_in'*value_ig' + prev_state*value_fg'`,
`value_og' = activation(value_og + state*checkO, gate)` with the new state,
`state_atv = activation(state, state selector)` and `output = value_og'*state_atv`. -/
theorem forward_lstm_formulas {α : Type} [Add α] [Mul α]
    (activation : α → activation_mode_t → α) (a : ForwardArgs α)
    (node gate st : activation_mode_t) :
    (forward.lstm activation a node gate st).value_in = activation a.value_in node ∧
    (forward.lstm activation a node gate st).value_ig =
      activation (a.value_ig + a.prev_state * a.checkI) gate ∧
    (forward.lstm activation a node gate st).value_fg =
      activation (a.value_fg + a.prev_state * a.checkF) gate ∧
    (forward.lstm activation a node gate st).state =
      (forward.lstm activation a node gate st).value_in *
          (forward.lstm activation a node gate st).value_ig +
        a.prev_state * (forward.lstm activation a node gate st).value_fg ∧
    (forward.lstm activation a node gate st).value_og =
      activation (a.value_og + (forward.lstm activation a node gate st).state * a.checkO) gate ∧
    (forward.lstm activation a node gate st).state_atv =
      activation (forward.lstm activation a node gate st).state st ∧
    (forward.lstm activation a node gate st).output =
      (forward.lstm activation a node gate st).value_og *
        (forward.lstm activation a node gate st).state_atv :=
  ⟨rfl, rfl, rfl, rfl, rfl, rfl, rfl⟩

/-- C2. For every argument pack and every choice of selectors the scalar backward step
returns the nine results of the specification: the output-gate gradient, the
incremented state gradient `state_grad + (activation(output_grad*value_og,
state_atv, state selector) + grad_og*checkO)`, the three gate gradients and the
previous-state gradient computed from the incremented state gradient, and the
three peephole gradients. -/
theorem backward_lstm_formulas {α : Type} [Add α] [Mul α]
    (activation : α → α → activation_mode_t → α) (a : BackwardArgs α)
    (node gate st : activation_mode_t) :
    (backward.lstm activation a node gate st).grad_og =
      activation (a.output_grad * a.state_atv) a.value_og gate ∧
    (backward.lstm activation a node gate st).state_grad =
      a.state_grad + (activation (a.output_grad * a.value_og) a.state_atv st +
        (backward.lstm activation a node gate st).grad_og * a.checkO) ∧
    (backward.lstm activation a node gate st).grad_in =
      activation ((backward.lstm activation a node gate st).state_grad * a.value_ig)
        a.value_in node ∧
    (backward.lstm activation a node gate st).grad_ig =
      activation ((backward.lstm activation a node gate st).state_grad * a.value_in)
        a.value_ig gate ∧
    (backward.lstm activation a node gate st).grad_fg =
      activation ((backward.lstm activation a node gate st).state_grad * a.prev_state)
        a.value_fg gate ∧
    (backward.lstm activation a node gate st).prev_state_grad =
      (backward.lstm activation a node gate st).grad_ig * a.checkI +
        (backward.lstm activation a node gate st).grad_fg * a.checkF +
        (backward.lstm activation a node gate st).state_grad * a.value_fg ∧
    (backward.lstm activation a node gate st).checkIGrad =
      (backward.lstm activation a node gate st).grad_ig * a.prev_state ∧
    (backward.lstm activation a node gate st).checkFGrad =
      (backward.lstm activation a node gate st).grad_fg * a.prev_state ∧
    (backward.lstm activation a node gate st).checkOGrad =
      (backward.lstm activation a node gate st).grad_og * a.state :=
  ⟨rfl, rfl, rfl, rfl, rfl, rfl, rfl, rfl, rfl⟩

/-! ## Gradient correctness over the reals -/

/-- Total derivative of the forward `output` along a curve of inputs: when the
eight inputs of the forward step move along differentiable curves, the derivative
of `output` is the sum of the eight results of the backward step (run on the
forward results with `output_grad = 1` and `state_grad = 0`), each times the
velocity of its input. -/
theorem hasDerivAt_forward_output
    (act : ℝ → activation_mode_t → ℝ) (actGrad : ℝ → ℝ → activation_mode_t → ℝ)
    (node gate st : activation_mode_t)
    (hd : ∀ m, m = node ∨ m = gate ∨ m = st → Differentiable ℝ (fun x => act x m))
    (hg : ∀ m, m = node ∨ m = gate ∨ m = st →
      ∀ g x, actGrad g (act x m) m = g * deriv (fun y => act y m) x)
    (f_in f_ig f_fg f_og f_p f_cI f_cF f_cO : ℝ → ℝ)
    (d_in d_ig d_fg d_og d_p d_cI d_cF d_cO s0 a0 o0 t : ℝ)
    (h_in : HasDerivAt f_in d_in t) (h_ig : HasDerivAt f_ig d_ig t)
    (h_fg : HasDerivAt f_fg d_fg t) (h_og : HasDerivAt f_og d_og t)
    (h_p : HasDerivAt f_p d_p t) (h_cI : HasDerivAt f_cI d_cI t)
    (h_cF : HasDerivAt f_cF d_cF t) (h_cO : HasDerivAt f_cO d_cO t)
    (slots : BackwardArgs ℝ) :
    HasDerivAt
      (fun s => (forward.lstm act
        ⟨f_in s, f_ig s, f_fg s, f_og s, f_p s, s0, a0, o0, f_cI s, f_cF s, f_cO s⟩
        node gate st).output)
      ((backward.lstm actGrad (backwardArgsOf (forward.lstm act
          ⟨f_in t, f_ig t, f_fg t, f_og t, f_p t, s0, a0, o0, f_cI t, f_cF t, f_cO t⟩
          node gate st) 1 0 slots) node gate st).grad_in * d_in +
       (backward.lstm actGrad (backwardArgsOf (forward.lstm act
          ⟨f_in t, f_ig t, f_fg t, f_og t, f_p t, s0, a0, o0, f_cI t, f_cF t, f_cO t⟩
          node gate st) 1 0 slots) node gate st).grad_ig * d_ig +
       (backward.lstm actGrad (backwardArgsOf (forward.lstm act
          ⟨f_in t, f_ig t, f_fg t, f_og t, f_p t, s0, a0, o0, f_cI t, f_cF t, f_cO t⟩
          node gate st) 1 0 slots) node gate st).grad_fg * d_fg +
       (backward.lstm actGrad (backwardArgsOf (forward.lstm act
          ⟨f_in t, f_ig t, f_fg t, f_og t, f_p t, s0, a0, o0, f_cI t, f_cF t, f_cO t⟩
          node gate st) 1 0 slots) node gate st).grad_og * d_og +
       (backward.lstm actGrad (backwardArgsOf (forward.lstm act
          ⟨f_in t, f_ig t, f_fg t, f_og t, f_p t, s0, a0, o0, f_cI t, f_cF t, f_cO t⟩
          node gate st) 1 0 slots) node gate st).prev_state_grad * d_p +
       (backward.lstm actGrad (backwardArgsOf (forward.lstm act
          ⟨f_in t, f_ig t, f_fg t, f_og t, f_p t, s0, a0, o0, f_cI t, f_cF t, f_cO t⟩
          node gate st) 1 0 slots) node gate st).checkIGrad * d_cI +
       (backward.lstm actGrad (backwardArgsOf (forward.lstm act
          ⟨f_in t, f_ig t, f_fg t, f_og t, f_p t, s0, a0, o0, f_cI t, f_cF t, f_cO t⟩
          node gate st) 1 0 slots) node gate st).checkFGrad * d_cF +
       (backward.lstm actGrad (backwardArgsOf (forward.lstm act
          ⟨f_in t, f_ig t, f_fg t, f_og t, f_p t, s0, a0, o0, f_cI t, f_cF t, f_cO t⟩
          node gate st) 1 0 slots) node gate st).checkOGrad * d_cO)
      t := by
  have hgn := hg node (Or.inl rfl)
  have hgg := hg gate (Or.inr (Or.inl rfl))
  have hgs := hg st (Or.inr (Or.inr rfl))
  have dn := fun x => ((hd node (Or.inl rfl)) x).hasDerivAt
  have dg := fun x => ((hd gate (Or.inr (Or.inl rfl))) x).hasDerivAt
  have ds := fun x => ((hd st (Or.inr (Or.inr rfl))) x).hasDerivAt
  -- the activated gates
  have hvin := HasDerivAt.comp t (dn (f_in t)) h_in
  have hvig := HasDerivAt.comp t (dg (f_ig t + f_p t * f_cI t)) (h_ig.add (h_p.mul h_cI))
  have hvfg := HasDerivAt.comp t (dg (f_fg t + f_p t * f_cF t)) (h_fg.add (h_p.mul h_cF))
  -- the new state
  have hS := (hvin.mul hvig).add (h_p.mul hvfg)
  -- output gate and activated state
  have hvog := HasDerivAt.comp t (dg _) (h_og.add (hS.mul h_cO))
  have hatv := HasDerivAt.comp t (ds _) hS
  have hout := hvog.mul hatv
  convert hout using 1
  simp only [forward.lstm, backward.lstm, backwardArgsOf, Function.comp_apply, hgn, hgg, hgs]
  ring

/-- The stand-in activation is differentiable for every selector. -/
theorem linActivation_differentiable (m : activation_mode_t) :
    Differentiable ℝ (fun x : ℝ => linActivation x m) := by
  cases m <;> simp only [linActivation, slopeOf] <;> fun_prop

/-- The stand-in derivative form is the gradient times the derivative of the
stand-in activation. -/
theorem linActivationGrad_eq_mul_deriv (m : activation_mode_t) (g x : ℝ) :
    linActivationGrad g (linActivation x m) m = g * deriv (fun y : ℝ => linActivation y m) x := by
  have hc : ∀ c : ℝ, deriv (fun y : ℝ => c * y) x = c := fun c => by
    simpa using ((hasDerivAt_id x).const_mul c).deriv
  cases m <;> simp [linActivation, linActivationGrad, slopeOf, hc]

/-- C3. Gradient correctness for the gate inputs, over the reals. Let the activations
selected for node, gate and state be differentiable, and let the derivative form
satisfy `activation(g, f(x), sel) = g * f'(x)` for them. Run the scalar forward step
on the pack `a`, then the scalar backward step on the forward results with
`output_grad = 1` and incoming `state_grad = 0`. Then `grad_in`, `grad_ig`,
`grad_fg` and `grad_og` are the partial derivatives of the forward `output` with
respect to the incoming `value_in`, `value_ig`, `value_fg`, `value_og`. -/
theorem backward_gate_grads_are_partials
    (act : ℝ → activation_mode_t → ℝ) (actGrad : ℝ → ℝ → activation_mode_t → ℝ)
    (node gate st : activation_mode_t)
    (hd : ∀ m, m = node ∨ m = gate ∨ m = st → Differentiable ℝ (fun x => act x m))
    (hg : ∀ m, m = node ∨ m = gate ∨ m = st →
      ∀ g x, actGrad g (act x m) m = g * deriv (fun y => act y m) x)
    (a : ForwardArgs ℝ) (slots : BackwardArgs ℝ) :
    HasDerivAt (fun x => (forward.lstm act { a with value_in := x } node gate st).output)
      (backward.lstm actGrad (backwardArgsOf (forward.lstm act a node gate st) 1 0 slots)
        node gate st).grad_in a.value_in ∧
    HasDerivAt (fun x => (forward.lstm act { a with value_ig := x } node gate st).output)
      (backward.lstm actGrad (backwardArgsOf (forward.lstm act a node gate st) 1 0 slots)
        node gate st).grad_ig a.value_ig ∧
    HasDerivAt (fun x => (forward.lstm act { a with value_fg := x } node gate st).output)
      (backward.lstm actGrad (backwardArgsOf (forward.lstm act a node gate st) 1 0 slots)
        node gate st).grad_fg a.value_fg ∧
    HasDerivAt (fun x => (forward.lstm act { a with value_og := x } node gate st).output)
      (backward.lstm actGrad (backwardArgsOf (forward.lstm act a node gate st) 1 0 slots)
        node gate st).grad_og a.value_og := by
  refine ⟨?_, ?_, ?_, ?_⟩
  · have h := hasDerivAt_forward_output act actGrad node gate st hd hg
      (fun x => x) (fun _ => a.value_ig) (fun _ => a.value_fg) (fun _ => a.value_og)
      (fun _ => a.prev_state) (fun _ => a.checkI) (fun _ => a.checkF) (fun _ => a.checkO)
      1 0 0 0 0 0 0 0 a.state a.state_atv a.output a.value_in
      (hasDerivAt_id _) (hasDerivAt_const _ _) (hasDerivAt_const _ _) (hasDerivAt_const _ _)
      (hasDerivAt_const _ _) (hasDerivAt_const _ _) (hasDerivAt_const _ _) (hasDerivAt_const _ _) slots
    simp only [mul_one, mul_zero, add_zero, zero_add] at h
    exact h
  · have h := hasDerivAt_forward_output act actGrad node gate st hd hg
      (fun _ => a.value_in) (fun x => x) (fun _ => a.value_fg) (fun _ => a.value_og)
      (fun _ => a.prev_state) (fun _ => a.checkI) (fun _ => a.checkF) (fun _ => a.checkO)
      0 1 0 0 0 0 0 0 a.state a.state_atv a.output a.value_ig
      (hasDerivAt_const _ _) (hasDerivAt_id _) (hasDerivAt_const _ _) (hasDerivAt_const _ _)
      (hasDerivAt_const _ _) (hasDerivAt_const _ _) (hasDerivAt_const _ _) (hasDerivAt_const _ _) slots
    simp only [mul_one, mul_zero, add_zero, zero_add] at h
    exact h
  · have h := hasDerivAt_forward_output act actGrad node gate st hd hg
      (fun _ => a.value_in) (fun _ => a.value_ig) (fun x => x) (fun _ => a.value_og)
      (fun _ => a.prev_state) (fun _ => a.checkI) (fun _ => a.checkF) (fun _ => a.checkO)
      0 0 1 0 0 0 0 0 a.state a.state_atv a.output a.value_fg
      (hasDerivAt_const _ _) (hasDerivAt_const _ _) (hasDerivAt_id _) (hasDerivAt_const _ _)
      (hasDerivAt_const _ _) (hasDerivAt_const _ _) (hasDerivAt_const _ _) (hasDerivAt_const _ _) slots
    simp only [mul_one, mul_zero, add_zero, zero_add] at h
    exact h
  · have h := hasDerivAt_forward_output act actGrad node gate st hd hg
      (fun _ => a.value_in) (fun _ => a.value_ig) (fun _ => a.value_fg) (fun x => x)
      (fun _ => a.prev_state) (fun _ => a.checkI) (fun _ => a.checkF) (fun _ => a.checkO)
      0 0 0 1 0 0 0 0 a.state a.state_atv a.output a.value_og
      (hasDerivAt_const _ _) (hasDerivAt_const _ _) (hasDerivAt_const _ _) (hasDerivAt_id _)
      (hasDerivAt_const _ _) (hasDerivAt_const _ _) (hasDerivAt_const _ _) (hasDerivAt_const _ _) slots
    simp only [mul_one, mul_zero, add_zero, zero_add] at h
    exact h

/-- Witness for C3: the stand-in catalogue with node tanh (slope 3), gate sigmoid
(slope 2) and state identity, at `value_in = 1`, `value_ig = 2`, `value_fg = 3`,
`value_og = 4`, `prev_state = 5`, `checkI = 1`, `checkF = 2`, `checkO = 1`. -/
theorem backward_gate_grads_are_partials_witness :
    (∀ m, m = activation_mode_t.tanh ∨ m = activation_mode_t.sigmoid ∨
        m = activation_mode_t.identity →
      Differentiable ℝ (fun x : ℝ => linActivation x m)) ∧
    (∀ m, m = activation_mode_t.tanh ∨ m = activation_mode_t.sigmoid ∨
        m = activation_mode_t.identity → ∀ g x : ℝ,
      linActivationGrad g (linActivation x m) m =
        g * deriv (fun y : ℝ => linActivation y m) x) ∧
    HasDerivAt (fun x : ℝ => (forward.lstm linActivation
      { value_in := x, value_ig := 2, value_fg := 3, value_og := 4, prev_state := 5,
        state := 0, state_atv := 0, output := 0, checkI := 1, checkF := 2, checkO := 1 }
      .tanh .sigmoid .identity).output) 29232 1 ∧
    HasDerivAt (fun x : ℝ => (forward.lstm linActivation
      { value_in := 1, value_ig := x, value_fg := 3, value_og := 4, prev_state := 5,
        state := 0, state_atv := 0, output := 0, checkI := 1, checkF := 2, checkO := 1 }
      .tanh .sigmoid .identity).output) 4176 2 ∧
    HasDerivAt (fun x : ℝ => (forward.lstm linActivation
      { value_in := 1, value_ig := 2, value_fg := x, value_og := 4, prev_state := 5,
        state := 0, state_atv := 0, output := 0, checkI := 1, checkF := 2, checkO := 1 }
      .tanh .sigmoid .identity).output) 6960 3 ∧
    HasDerivAt (fun x : ℝ => (forward.lstm linActivation
      { value_in := 1, value_ig := 2, value_fg := 3, value_og := x, prev_state := 5,
        state := 0, state_atv := 0, output := 0, checkI := 1, checkF := 2, checkO := 1 }
      .tanh .sigmoid .identity).output) 344 4 := by
  obtain ⟨h1, h2, h3, h4⟩ := backward_gate_grads_are_partials linActivation linActivationGrad
    .tanh .sigmoid .identity
    (fun m _ => linActivation_differentiable m) (fun m _ => linActivationGrad_eq_mul_deriv m)
    ⟨1, 2, 3, 4, 5, 0, 0, 0, 1, 2, 1⟩
    ⟨0, 0, 0, 0, 9, 9, 9, 9, 0, 9, 0, 0, 0, 0, 0, 0, 0, 9, 9, 9⟩
  refine ⟨fun m _ => linActivation_differentiable m,
    fun m _ => linActivationGrad_eq_mul_deriv m, ?_, ?_, ?_, ?_⟩
  · convert h1 using 1
    norm_num [forward.lstm, backward.lstm, backwardArgsOf, linActivation, linActivationGrad,
      slopeOf]
  · convert h2 using 1
    norm_num [forward.lstm, backward.lstm, backwardArgsOf, linActivation, linActivationGrad,
      slopeOf]
  · convert h3 using 1
    norm_num [forward.lstm, backward.lstm, backwardArgsOf, linActivation, linActivationGrad,
      slopeOf]
  · convert h4 using 1
    norm_num [forward.lstm, backward.lstm, backwardArgsOf, linActivation, linActivationGrad,
      slopeOf]

/-- C4. Gradient correctness for the previous state and the peephole weights, over
the reals, under the hypotheses of C3: `prev_state_grad` is the partial
derivative of the forward `output` with respect to `prev_state` (through both
peephole terms and the forget-gate product), and `checkIGrad`, `checkFGrad`,
`checkOGrad` are the partial derivatives with respect to `checkI`, `checkF`,
`checkO`. -/
theorem backward_state_and_peephole_grads_are_partials
    (act : ℝ → activation_mode_t → ℝ) (actGrad : ℝ → ℝ → activation_mode_t → ℝ)
    (node gate st : activation_mode_t)
    (hd : ∀ m, m = node ∨ m = gate ∨ m = st → Differentiable ℝ (fun x => act x m))
    (hg : ∀ m, m = node ∨ m = gate ∨ m = st →
      ∀ g x, actGrad g (act x m) m = g * deriv (fun y => act y m) x)
    (a : ForwardArgs ℝ) (slots : BackwardArgs ℝ) :
    HasDerivAt (fun x => (forward.lstm act { a with prev_state := x } node gate st).output)
      (backward.lstm actGrad (backwardArgsOf (forward.lstm act a node gate st) 1 0 slots)
        node gate st).prev_state_grad a.prev_state ∧
    HasDerivAt (fun x => (forward.lstm act { a with checkI := x } node gate st).output)
      (backward.lstm actGrad (backwardArgsOf (forward.lstm act a node gate st) 1 0 slots)
        node gate st).checkIGrad a.checkI ∧
    HasDerivAt (fun x => (forward.lstm act { a with checkF := x } node gate st).output)
      (backward.lstm actGrad (backwardArgsOf (forward.lstm act a node gate st) 1 0 slots)
        node gate st).checkFGrad a.checkF ∧
    HasDerivAt (fun x => (forward.lstm act { a with checkO := x } node gate st).output)
      (backward.lstm actGrad (backwardArgsOf (forward.lstm act a node gate st) 1 0 slots)
        node gate st).checkOGrad a.checkO := by
  refine ⟨?_, ?_, ?_, ?_⟩
  · have h := hasDerivAt_forward_output act actGrad node gate st hd hg
      (fun _ => a.value_in) (fun _ => a.value_ig) (fun _ => a.value_fg) (fun _ => a.value_og)
      (fun x => x) (fun _ => a.checkI) (fun _ => a.checkF) (fun _ => a.checkO)
      0 0 0 0 1 0 0 0 a.state a.state_atv a.output a.prev_state
      (hasDerivAt_const _ _) (hasDerivAt_const _ _) (hasDerivAt_const _ _) (hasDerivAt_const _ _)
      (hasDerivAt_id _) (hasDerivAt_const _ _) (hasDerivAt_const _ _) (hasDerivAt_const _ _) slots
    simp only [mul_one, mul_zero, add_zero, zero_add] at h
    exact h
  · have h := hasDerivAt_forward_output act actGrad node gate st hd hg
      (fun _ => a.value_in) (fun _ => a.value_ig) (fun _ => a.value_fg) (fun _ => a.value_og)
      (fun _ => a.prev_state) (fun x => x) (fun _ => a.checkF) (fun _ => a.checkO)
      0 0 0 0 0 1 0 0 a.state a.state_atv a.output a.checkI
      (hasDerivAt_const _ _) (hasDerivAt_const _ _) (hasDerivAt_const _ _) (hasDerivAt_const _ _)
      (hasDerivAt_const _ _) (hasDerivAt_id _) (hasDerivAt_const _ _) (hasDerivAt_const _ _) slots
    simp only [mul_one, mul_zero, add_zero, zero_add] at h
    exact h
  · have h := hasDerivAt_forward_output act actGrad node gate st hd hg
      (fun _ => a.value_in) (fun _ => a.value_ig) (fun _ => a.value_fg) (fun _ => a.value_og)
      (fun _ => a.prev_state) (fun _ => a.checkI) (fun x => x) (fun _ => a.checkO)
      0 0 0 0 0 0 1 0 a.state a.state_atv a.output a.checkF
      (hasDerivAt_const _ _) (hasDerivAt_const _ _) (hasDerivAt_const _ _) (hasDerivAt_const _ _)
      (hasDerivAt_const _ _) (hasDerivAt_const _ _) (hasDerivAt_id _) (hasDerivAt_const _ _) slots
    simp only [mul_one, mul_zero, add_zero, zero_add] at h
    exact h
  · have h := hasDerivAt_forward_output act actGrad node gate st hd hg
      (fun _ => a.value_in) (fun _ => a.value_ig) (fun _ => a.value_fg) (fun _ => a.value_og)
      (fun _ => a.prev_state) (fun _ => a.checkI) (fun _ => a.checkF) (fun x => x)
      0 0 0 0 0 0 0 1 a.state a.state_atv a.output a.checkO
      (hasDerivAt_const _ _) (hasDerivAt_const _ _) (hasDerivAt_const _ _) (hasDerivAt_const _ _)
      (hasDerivAt_const _ _) (hasDerivAt_const _ _) (hasDerivAt_const _ _) (hasDerivAt_id _) slots
    simp only [mul_one, mul_zero, add_zero, zero_add] at h
    exact h

/-- Witness for C4, at the same inputs as the witness for C3. -/
theorem backward_state_and_peephole_grads_are_partials_witness :
    (∀ m, m = activation_mode_t.tanh ∨ m = activation_mode_t.sigmoid ∨
        m = activation_mode_t.identity →
      Differentiable ℝ (fun x : ℝ => linActivation x m)) ∧
    (∀ m, m = activation_mode_t.tanh ∨ m = activation_mode_t.sigmoid ∨
        m = activation_mode_t.identity → ∀ g x : ℝ,
      linActivationGrad g (linActivation x m) m =
        g * deriv (fun y : ℝ => linActivation y m) x) ∧
    HasDerivAt (fun x : ℝ => (forward.lstm linActivation
      { value_in := 1, value_ig := 2, value_fg := 3, value_og := 4, prev_state := x,
        state := 0, state_atv := 0, output := 0, checkI := 1, checkF := 2, checkO := 1 }
      .tanh .sigmoid .identity).output) 36192 5 ∧
    HasDerivAt (fun x : ℝ => (forward.lstm linActivation
      { value_in := 1, value_ig := 2, value_fg := 3, value_og := 4, prev_state := 5,
        state := 0, state_atv := 0, output := 0, checkI := x, checkF := 2, checkO := 1 }
      .tanh .sigmoid .identity).output) 20880 1 ∧
    HasDerivAt (fun x : ℝ => (forward.lstm linActivation
      { value_in := 1, value_ig := 2, value_fg := 3, value_og := 4, prev_state := 5,
        state := 0, state_atv := 0, output := 0, checkI := 1, checkF := x, checkO := 1 }
      .tanh .sigmoid .identity).output) 34800 2 ∧
    HasDerivAt (fun x : ℝ => (forward.lstm linActivation
      { value_in := 1, value_ig := 2, value_fg := 3, value_og := 4, prev_state := 5,
        state := 0, state_atv := 0, output := 0, checkI := 1, checkF := 2, checkO := x }
      .tanh .sigmoid .identity).output) 59168 1 := by
  obtain ⟨h1, h2, h3, h4⟩ := backward_state_and_peephole_grads_are_partials linActivation linActivationGrad
    .tanh .sigmoid .identity
    (fun m _ => linActivation_differentiable m) (fun m _ => linActivationGrad_eq_mul_deriv m)
    ⟨1, 2, 3, 4, 5, 0, 0, 0, 1, 2, 1⟩
    ⟨0, 0, 0, 0, 9, 9, 9, 9, 0, 9, 0, 0, 0, 0, 0, 0, 0, 9, 9, 9⟩
  refine ⟨fun m _ => linActivation_differentiable m,
    fun m _ => linActivationGrad_eq_mul_deriv m, ?_, ?_, ?_, ?_⟩
  · convert h1 using 1
    norm_num [forward.lstm, backward.lstm, backwardArgsOf, linActivation, linActivationGrad,
      slopeOf]
  · convert h2 using 1
    norm_num [forward.lstm, backward.lstm, backwardArgsOf, linActivation, linActivationGrad,
      slopeOf]
  · convert h3 using 1
    norm_num [forward.lstm, backward.lstm, backwardArgsOf, linActivation, linActivationGrad,
      slopeOf]
  · convert h4 using 1
    norm_num [forward.lstm, backward.lstm, backwardArgsOf, linActivation, linActivationGrad,
      slopeOf]

/-! ## The `__m256` overloads against the scalar steps -/

/-- C5. Forward scalar/vector equivalence. If the `__m256` activation acts lane-wise,
then for every pack of eight-lane arguments and every lane `i`, lane `i` of the
pack returned by the `__m256` forward step is the pack returned by the scalar
forward step on lane `i` of the arguments; so two argument packs with the same
lane `i` give results with the same lane `i`. -/
theorem forward_lstm_m256_lane {α : Type} [Add α] [Mul α]
    (activation : α → activation_mode_t → α)
    (vactivation : m256 α → activation_mode_t → m256 α)
    (hlane : ∀ v m i, vactivation v m i = activation (v i) m)
    (a : ForwardArgs (m256 α)) (node gate st : activation_mode_t) (i : Fin 8) :
    (forward.lstm_m256 vactivation a node gate st).lane i =
      forward.lstm activation (a.lane i) node gate st ∧
    ∀ b : ForwardArgs (m256 α), b.lane i = a.lane i →
      (forward.lstm_m256 vactivation b node gate st).lane i =
        (forward.lstm_m256 vactivation a node gate st).lane i := by
  have key : ∀ c : ForwardArgs (m256 α),
      (forward.lstm_m256 vactivation c node gate st).lane i =
        forward.lstm activation (c.lane i) node gate st := by
    intro c
    simp only [forward.lstm_m256, forward.lstm, ForwardArgs.lane, mm256_add_ps, mm256_mul_ps,
      hlane]
  exact ⟨key a, fun b hb => by rw [key b, key a, hb]⟩

/-- Witness for C5: integer lanes, the stand-in activation applied lane-wise, lane 3
of eight packs that differ in `value_in` and `prev_state`. -/
theorem forward_lstm_m256_lane_witness :
    (∀ (v : m256 ℤ) m i, lanewise linActivation v m i = linActivation (v i) m) ∧
    (forward.lstm_m256 (lanewise linActivation)
        (ForwardArgs.ofLanes fun j => ⟨(j.val : ℤ) + 1, 2, 3, 4, 5 - (j.val : ℤ), 0, 0, 0, 1, 2, 1⟩)
        .tanh .sigmoid .identity).lane 3 =
      forward.lstm linActivation (⟨4, 2, 3, 4, 2, 0, 0, 0, 1, 2, 1⟩ : ForwardArgs ℤ)
        .tanh .sigmoid .identity :=
  ⟨fun _ _ _ => rfl,
    (forward_lstm_m256_lane linActivation (lanewise linActivation) (fun _ _ _ => rfl)
      (ForwardArgs.ofLanes fun j => ⟨(j.val : ℤ) + 1, 2, 3, 4, 5 - (j.val : ℤ), 0, 0, 0, 1, 2, 1⟩)
      .tanh .sigmoid .identity 3).1⟩

/-- C6. Backward scalar/vector equivalence in exact arithmetic. Over a commutative
ring, if the `__m256` derivative form acts lane-wise, then for every pack of
eight-lane arguments and every lane `i`, lane `i` of the pack returned by the
`__m256` backward step is the pack returned by the scalar backward step on lane
`i` of the arguments (all nine results, and the untouched arguments). -/
theorem backward_lstm_m256_lane {α : Type} [CommRing α]
    (activation : α → α → activation_mode_t → α)
    (vactivation : m256 α → m256 α → activation_mode_t → m256 α)
    (hlane : ∀ g v m i, vactivation g v m i = activation (g i) (v i) m)
    (a : BackwardArgs (m256 α)) (node gate st : activation_mode_t) (i : Fin 8) :
    (backward.lstm_m256 vactivation a node gate st).lane i =
      backward.lstm activation (a.lane i) node gate st := by
  have hsg : activation (a.output_grad i * a.state_atv i) (a.value_og i) gate * a.checkO i +
        (activation (a.output_grad i * a.value_og i) (a.state_atv i) st + a.state_grad i) =
      a.state_grad i + (activation (a.output_grad i * a.value_og i) (a.state_atv i) st +
        activation (a.output_grad i * a.state_atv i) (a.value_og i) gate * a.checkO i) := by
    ring
  simp only [backward.lstm_m256, backward.lstm, BackwardArgs.lane, mm256_add_ps, mm256_mul_ps,
    hlane, hsg, BackwardArgs.mk.injEq, true_and, and_true]
  ring

/-- Witness for C6: integer lanes, the stand-in derivative form applied lane-wise,
lane 5 of eight packs that differ in `output_grad` and `state_grad`. -/
theorem backward_lstm_m256_lane_witness :
    (∀ (g v : m256 ℤ) m i,
      lanewiseGrad linActivationGrad g v m i = linActivationGrad (g i) (v i) m) ∧
    (backward.lstm_m256 (lanewiseGrad linActivationGrad)
        (BackwardArgs.ofLanes fun j =>
          ⟨3, 14, 26, 352, 0, 0, 0, 0, 5, 0, 172, 10 * (j.val : ℤ), 172, (j.val : ℤ) + 1, 1, 2, 1,
            0, 0, 0⟩)
        .tanh .sigmoid .identity).lane 5 =
      backward.lstm linActivationGrad
        (⟨3, 14, 26, 352, 0, 0, 0, 0, 5, 0, 172, 50, 172, 6, 1, 2, 1, 0, 0, 0⟩ : BackwardArgs ℤ)
        .tanh .sigmoid .identity :=
  ⟨fun _ _ _ _ => rfl,
    backward_lstm_m256_lane linActivationGrad (lanewiseGrad linActivationGrad)
      (fun _ _ _ _ => rfl)
      (BackwardArgs.ofLanes fun j =>
        ⟨3, 14, 26, 352, 0, 0, 0, 0, 5, 0, 172, 10 * (j.val : ℤ), 172, (j.val : ℤ) + 1, 1, 2, 1,
            0, 0, 0⟩)
      .tanh .sigmoid .identity 5⟩

/-- C7, as stated, fails for the backward step. In the toy rounded format, whose
addition is commutative, take `output_grad = state_atv = value_og = checkO = 1`
and incoming `state_grad = 8` with identity derivative forms: the scalar step
computes `8 + (1 + 1) = 10`, the `__m256` step computes `1 + (1 + 8)`, where
`1 + 8` rounds to `8` twice, and returns `8`. -/
theorem backward_lstm_m256_order_counterexample :
    (∀ a b : RoundedInt, a + b = b + a) ∧
    ((backward.lstm_m256 (lanewiseGrad idActivationGrad)
        (BackwardArgs.ofLanes fun _ => (⟨⟨1⟩, ⟨1⟩, ⟨1⟩, ⟨1⟩, ⟨0⟩, ⟨0⟩, ⟨0⟩, ⟨0⟩, ⟨1⟩, ⟨0⟩,
          ⟨1⟩, ⟨8⟩, ⟨1⟩, ⟨1⟩, ⟨1⟩, ⟨1⟩, ⟨1⟩, ⟨0⟩, ⟨0⟩, ⟨0⟩⟩ : BackwardArgs RoundedInt))
        .identity .identity .identity).lane 0).state_grad = ⟨8⟩ ∧
    (backward.lstm idActivationGrad (⟨⟨1⟩, ⟨1⟩, ⟨1⟩, ⟨1⟩, ⟨0⟩, ⟨0⟩, ⟨0⟩, ⟨0⟩, ⟨1⟩, ⟨0⟩,
        ⟨1⟩, ⟨8⟩, ⟨1⟩, ⟨1⟩, ⟨1⟩, ⟨1⟩, ⟨1⟩, ⟨0⟩, ⟨0⟩, ⟨0⟩⟩ : BackwardArgs RoundedInt)
      .identity .identity .identity).state_grad = ⟨10⟩ ∧
    ((backward.lstm_m256 (lanewiseGrad idActivationGrad)
        (BackwardArgs.ofLanes fun _ => (⟨⟨1⟩, ⟨1⟩, ⟨1⟩, ⟨1⟩, ⟨0⟩, ⟨0⟩, ⟨0⟩, ⟨0⟩, ⟨1⟩, ⟨0⟩,
          ⟨1⟩, ⟨8⟩, ⟨1⟩, ⟨1⟩, ⟨1⟩, ⟨1⟩, ⟨1⟩, ⟨0⟩, ⟨0⟩, ⟨0⟩⟩ : BackwardArgs RoundedInt))
        .identity .identity .identity).lane 0) ≠
      backward.lstm idActivationGrad (⟨⟨1⟩, ⟨1⟩, ⟨1⟩, ⟨1⟩, ⟨0⟩, ⟨0⟩, ⟨0⟩, ⟨0⟩, ⟨1⟩, ⟨0⟩,
        ⟨1⟩, ⟨8⟩, ⟨1⟩, ⟨1⟩, ⟨1⟩, ⟨1⟩, ⟨1⟩, ⟨0⟩, ⟨0⟩, ⟨0⟩⟩ : BackwardArgs RoundedInt)
      .identity .identity .identity := by
  refine ⟨fun a b => ?_, by decide, by decide, by decide⟩
  show RoundedInt.mk (roundEven (a.val + b.val)) = RoundedInt.mk (roundEven (b.val + a.val))
  rw [Int.add_comm]

/-- C7, amended. With lane-wise activations: the forward `__m256` step and the scalar
forward step agree per lane for every interpretation of `+` and `*`; and for
every interpretation with commutative `+`, the backward `__m256` step and the
scalar backward step agree per lane as soon as the one sum of the state gradient
may be regrouped, `(state_grad + A) + B = state_grad + (A + B)` with
`A = activation(output_grad*value_og, state_atv, state selector)` and
`B = grad_og*checkO`; every other operation of the two paths is grouped alike. -/
theorem lstm_m256_same_order_except_state_grad {α : Type} [AddCommMagma α] [Mul α]
    (act : α → activation_mode_t → α) (vact : m256 α → activation_mode_t → m256 α)
    (actGrad : α → α → activation_mode_t → α)
    (vactGrad : m256 α → m256 α → activation_mode_t → m256 α)
    (hlane : ∀ v m i, vact v m i = act (v i) m)
    (hlaneGrad : ∀ g v m i, vactGrad g v m i = actGrad (g i) (v i) m)
    (a : ForwardArgs (m256 α)) (b : BackwardArgs (m256 α))
    (node gate st : activation_mode_t) (i : Fin 8) :
    (forward.lstm_m256 vact a node gate st).lane i =
      forward.lstm act (a.lane i) node gate st ∧
    ((b.state_grad i + actGrad (b.output_grad i * b.value_og i) (b.state_atv i) st) +
          actGrad (b.output_grad i * b.state_atv i) (b.value_og i) gate * b.checkO i =
        b.state_grad i + (actGrad (b.output_grad i * b.value_og i) (b.state_atv i) st +
          actGrad (b.output_grad i * b.state_atv i) (b.value_og i) gate * b.checkO i) →
      (backward.lstm_m256 vactGrad b node gate st).lane i =
        backward.lstm actGrad (b.lane i) node gate st) := by
  refine ⟨?_, fun hsum => ?_⟩
  · simp only [forward.lstm_m256, forward.lstm, ForwardArgs.lane, mm256_add_ps, mm256_mul_ps,
      hlane]
  · have hsg : actGrad (b.output_grad i * b.state_atv i) (b.value_og i) gate * b.checkO i +
          (actGrad (b.output_grad i * b.value_og i) (b.state_atv i) st + b.state_grad i) =
        b.state_grad i + (actGrad (b.output_grad i * b.value_og i) (b.state_atv i) st +
          actGrad (b.output_grad i * b.state_atv i) (b.value_og i) gate * b.checkO i) := by
      rw [← hsum, add_comm, add_comm (b.state_grad i)]
    simp only [backward.lstm_m256, backward.lstm, BackwardArgs.lane, mm256_add_ps, mm256_mul_ps,
      hlaneGrad, hsg, BackwardArgs.mk.injEq, true_and, and_true]
    exact add_comm _ _

/-- Witness for C7, amended: the toy rounded format, identity activations, lane 0
of eight equal packs with incoming `state_grad = 2`, where `(2 + 1) + 1` and
`2 + (1 + 1)` are both `4`. -/
theorem lstm_m256_same_order_except_state_grad_witness :
    (∀ (v : m256 RoundedInt) m i, lanewise idActivation v m i = idActivation (v i) m) ∧
    (∀ (g v : m256 RoundedInt) m i,
      lanewiseGrad idActivationGrad g v m i = idActivationGrad (g i) (v i) m) ∧
    (forward.lstm_m256 (lanewise idActivation)
        (ForwardArgs.ofLanes fun _ => (⟨⟨1⟩, ⟨2⟩, ⟨3⟩, ⟨1⟩, ⟨2⟩, ⟨0⟩, ⟨0⟩, ⟨0⟩, ⟨1⟩, ⟨1⟩,
          ⟨1⟩⟩ : ForwardArgs RoundedInt))
        .identity .identity .identity).lane 0 =
      forward.lstm idActivation
        ((ForwardArgs.ofLanes fun _ => (⟨⟨1⟩, ⟨2⟩, ⟨3⟩, ⟨1⟩, ⟨2⟩, ⟨0⟩, ⟨0⟩, ⟨0⟩, ⟨1⟩, ⟨1⟩,
          ⟨1⟩⟩ : ForwardArgs RoundedInt)).lane 0)
        .identity .identity .identity ∧
    (backward.lstm_m256 (lanewiseGrad idActivationGrad)
        (BackwardArgs.ofLanes fun _ => (⟨⟨1⟩, ⟨1⟩, ⟨1⟩, ⟨1⟩, ⟨0⟩, ⟨0⟩, ⟨0⟩, ⟨0⟩, ⟨1⟩, ⟨0⟩,
          ⟨1⟩, ⟨2⟩, ⟨1⟩, ⟨1⟩, ⟨1⟩, ⟨1⟩, ⟨1⟩, ⟨0⟩, ⟨0⟩, ⟨0⟩⟩ : BackwardArgs RoundedInt))
        .identity .identity .identity).lane 0 =
      backward.lstm idActivationGrad
        ((BackwardArgs.ofLanes fun _ => (⟨⟨1⟩, ⟨1⟩, ⟨1⟩, ⟨1⟩, ⟨0⟩, ⟨0⟩, ⟨0⟩, ⟨0⟩, ⟨1⟩, ⟨0⟩,
          ⟨1⟩, ⟨2⟩, ⟨1⟩, ⟨1⟩, ⟨1⟩, ⟨1⟩, ⟨1⟩, ⟨0⟩, ⟨0⟩, ⟨0⟩⟩ : BackwardArgs RoundedInt)).lane 0)
        .identity .identity .identity :=
  ⟨fun _ _ _ => rfl, fun _ _ _ _ => rfl,
    (lstm_m256_same_order_except_state_grad
      (idActivation : RoundedInt → activation_mode_t → RoundedInt) (lanewise idActivation)
      idActivationGrad (lanewiseGrad idActivationGrad) (fun _ _ _ => rfl) (fun _ _ _ _ => rfl)
      (ForwardArgs.ofLanes fun _ => ⟨⟨1⟩, ⟨2⟩, ⟨3⟩, ⟨1⟩, ⟨2⟩, ⟨0⟩, ⟨0⟩, ⟨0⟩, ⟨1⟩, ⟨1⟩, ⟨1⟩⟩)
      (BackwardArgs.ofLanes fun _ => ⟨⟨1⟩, ⟨1⟩, ⟨1⟩, ⟨1⟩, ⟨0⟩, ⟨0⟩, ⟨0⟩, ⟨0⟩, ⟨1⟩, ⟨0⟩,
          ⟨1⟩, ⟨2⟩, ⟨1⟩, ⟨1⟩, ⟨1⟩, ⟨1⟩, ⟨1⟩, ⟨0⟩, ⟨0⟩, ⟨0⟩⟩)
      .identity .identity .identity 0).1,
    (lstm_m256_same_order_except_state_grad
      (idActivation : RoundedInt → activation_mode_t → RoundedInt) (lanewise idActivation)
      idActivationGrad (lanewiseGrad idActivationGrad) (fun _ _ _ => rfl) (fun _ _ _ _ => rfl)
      (ForwardArgs.ofLanes fun _ => ⟨⟨1⟩, ⟨2⟩, ⟨3⟩, ⟨1⟩, ⟨2⟩, ⟨0⟩, ⟨0⟩, ⟨0⟩, ⟨1⟩, ⟨1⟩, ⟨1⟩⟩)
      (BackwardArgs.ofLanes fun _ => ⟨⟨1⟩, ⟨1⟩, ⟨1⟩, ⟨1⟩, ⟨0⟩, ⟨0⟩, ⟨0⟩, ⟨0⟩, ⟨1⟩, ⟨0⟩,
          ⟨1⟩, ⟨2⟩, ⟨1⟩, ⟨1⟩, ⟨1⟩, ⟨1⟩, ⟨1⟩, ⟨0⟩, ⟨0⟩, ⟨0⟩⟩)
      .identity .identity .identity 0).2 (by decide)⟩

/-! ## Particular inputs of the scalar forward step -/

/-- C8, as stated, fails. With identity selectors and an activation that is the
identity map for them, the forward step on `input = 1`, all other gates, the
previous state and the peepholes `0` returns `state = 0`, not `1`: the input-gate
value `0` stays `0` under the identity and multiplies the input. -/
theorem forward_identity_example_counterexample :
    (∀ x : ℚ, linActivation x .identity = x) ∧
    (forward.lstm linActivation (⟨1, 0, 0, 0, 0, 7, 7, 7, 0, 0, 0⟩ : ForwardArgs ℚ)
      .identity .identity .identity).state = 0 ∧
    ¬ ((forward.lstm linActivation (⟨1, 0, 0, 0, 0, 7, 7, 7, 0, 0, 0⟩ : ForwardArgs ℚ)
        .identity .identity .identity).state = 1 ∧
      (forward.lstm linActivation (⟨1, 0, 0, 0, 0, 7, 7, 7, 0, 0, 0⟩ : ForwardArgs ℚ)
        .identity .identity .identity).state_atv = 1 ∧
      (forward.lstm linActivation (⟨1, 0, 0, 0, 0, 7, 7, 7, 0, 0, 0⟩ : ForwardArgs ℚ)
        .identity .identity .identity).output = 0) := by
  refine ⟨fun _ => rfl, ?_, ?_⟩ <;> norm_num [forward.lstm, linActivation]

/-- C8, amended. With all three selectors set to identity and an activation that is
the identity map for it, the scalar forward step on `input = 1`,
`inputGate = forgetGate = outputGate = 0`, `previousState = 0` and zero peephole
weights returns `state = 0`, `state_atv = 0` and `output = 0`, whatever `state`,
`state_atv` and `output` held before. -/
theorem forward_identity_example {α : Type} [NonAssocSemiring α]
    (activation : α → activation_mode_t → α)
    (hid : ∀ x, activation x .identity = x) (s0 a0 o0 : α) :
    (forward.lstm activation ⟨1, 0, 0, 0, 0, s0, a0, o0, 0, 0, 0⟩
      .identity .identity .identity).state = 0 ∧
    (forward.lstm activation ⟨1, 0, 0, 0, 0, s0, a0, o0, 0, 0, 0⟩
      .identity .identity .identity).state_atv = 0 ∧
    (forward.lstm activation ⟨1, 0, 0, 0, 0, s0, a0, o0, 0, 0, 0⟩
      .identity .identity .identity).output = 0 := by
  simp [forward.lstm, hid]

/-- Witness for C8, amended: rationals and the stand-in activation. -/
theorem forward_identity_example_witness :
    (∀ x : ℚ, linActivation x .identity = x) ∧
    (forward.lstm linActivation (⟨1, 0, 0, 0, 0, 7, 7, 7, 0, 0, 0⟩ : ForwardArgs ℚ)
      .identity .identity .identity).state = 0 ∧
    (forward.lstm linActivation (⟨1, 0, 0, 0, 0, 7, 7, 7, 0, 0, 0⟩ : ForwardArgs ℚ)
      .identity .identity .identity).state_atv = 0 ∧
    (forward.lstm linActivation (⟨1, 0, 0, 0, 0, 7, 7, 7, 0, 0, 0⟩ : ForwardArgs ℚ)
      .identity .identity .identity).output = 0 :=
  ⟨fun _ => rfl, forward_identity_example linActivation (fun _ => rfl) 7 7 7⟩

/-- C9, as stated, fails where a product with a zero peephole weight is not zero. In
the toy IEEE model with identity activations, zero peephole weights and the
finite inputs `value_in = 100`, `value_ig = 2`, `value_og = 1`, `prev_state = 0`:
the state `100*2` overflows to infinity, `inf*0` is NaN, and the step returns
`value_og = NaN`, not `activation(value_og, gate) = 1`. -/
theorem forward_lstm_zero_peephole_counterexample :
    (forward.lstm idActivation
      (⟨.fin 100, .fin 2, .fin 0, .fin 1, .fin 0, .fin 7, .fin 7, .fin 7, 0, 0, 0⟩ :
        ForwardArgs ToyFloat)
      .identity .identity .identity).state = .inf false ∧
    (forward.lstm idActivation
      (⟨.fin 100, .fin 2, .fin 0, .fin 1, .fin 0, .fin 7, .fin 7, .fin 7, 0, 0, 0⟩ :
        ForwardArgs ToyFloat)
      .identity .identity .identity).value_og = .nan ∧
    (forward.lstm idActivation
      (⟨.fin 100, .fin 2, .fin 0, .fin 1, .fin 0, .fin 7, .fin 7, .fin 7, 0, 0, 0⟩ :
        ForwardArgs ToyFloat)
      .identity .identity .identity).value_og ≠ idActivation (.fin 1) .identity := by
  decide

/-- C9, amended. Zero-peephole reduction of the forward step. When
`checkI = checkF = checkO = 0` and the input is one at which `prev_state*0 = 0`,
the new state times `0` is `0`, and adding `0` leaves `value_ig`, `value_fg`
and `value_og` unchanged (every input in exact arithmetic), the activated gates
are `activation(value_ig, gate)`, `activation(value_fg, gate)`,
`activation(value_og, gate)`, the state is `activation(value_in, node) *
activation(value_ig, gate) + prev_state*activation(value_fg, gate)` and the
output is `activation(value_og, gate)*activation(state, state selector)`. -/
theorem forward_lstm_zero_peephole {α : Type} [Zero α] [Add α] [Mul α]
    (activation : α → activation_mode_t → α) (a : ForwardArgs α)
    (node gate st : activation_mode_t)
    (hI : a.checkI = 0) (hF : a.checkF = 0) (hO : a.checkO = 0)
    (hp : a.prev_state * 0 = 0)
    (hig : a.value_ig + 0 = a.value_ig) (hfg : a.value_fg + 0 = a.value_fg)
    (hog : a.value_og + 0 = a.value_og)
    (hs : (activation a.value_in node * activation a.value_ig gate +
      a.prev_state * activation a.value_fg gate) * 0 = 0) :
    (forward.lstm activation a node gate st).value_ig = activation a.value_ig gate ∧
    (forward.lstm activation a node gate st).value_fg = activation a.value_fg gate ∧
    (forward.lstm activation a node gate st).value_og = activation a.value_og gate ∧
    (forward.lstm activation a node gate st).state =
      activation a.value_in node * activation a.value_ig gate +
        a.prev_state * activation a.value_fg gate ∧
    (forward.lstm activation a node gate st).output =
      activation a.value_og gate *
        activation (activation a.value_in node * activation a.value_ig gate +
          a.prev_state * activation a.value_fg gate) st := by
  simp only [forward.lstm, hI, hF, hO, hp, hig, hfg, hs, hog, and_self]

/-- Witness for C9, amended: the toy IEEE model at finite inputs that do not
overflow; the state is `1*2 + 5*3 = 17` and the output `4*17 = 68`. -/
theorem forward_lstm_zero_peephole_witness :
    (forward.lstm idActivation
      (⟨.fin 1, .fin 2, .fin 3, .fin 4, .fin 5, .fin 7, .fin 7, .fin 7, 0, 0, 0⟩ :
        ForwardArgs ToyFloat)
      .identity .identity .identity).value_og = .fin 4 ∧
    (forward.lstm idActivation
      (⟨.fin 1, .fin 2, .fin 3, .fin 4, .fin 5, .fin 7, .fin 7, .fin 7, 0, 0, 0⟩ :
        ForwardArgs ToyFloat)
      .identity .identity .identity).state = .fin 17 ∧
    (forward.lstm idActivation
      (⟨.fin 1, .fin 2, .fin 3, .fin 4, .fin 5, .fin 7, .fin 7, .fin 7, 0, 0, 0⟩ :
        ForwardArgs ToyFloat)
      .identity .identity .identity).output = .fin 68 :=
  ⟨(forward_lstm_zero_peephole idActivation
      (⟨.fin 1, .fin 2, .fin 3, .fin 4, .fin 5, .fin 7, .fin 7, .fin 7, 0, 0, 0⟩ :
        ForwardArgs ToyFloat)
      .identity .identity .identity rfl rfl rfl (by decide) (by decide) (by decide) (by decide)
      (by decide)).2.2.1,
    (forward_lstm_zero_peephole idActivation
      (⟨.fin 1, .fin 2, .fin 3, .fin 4, .fin 5, .fin 7, .fin 7, .fin 7, 0, 0, 0⟩ :
        ForwardArgs ToyFloat)
      .identity .identity .identity rfl rfl rfl (by decide) (by decide) (by decide) (by decide)
      (by decide)).2.2.2.1,
    (forward_lstm_zero_peephole idActivation
      (⟨.fin 1, .fin 2, .fin 3, .fin 4, .fin 5, .fin 7, .fin 7, .fin 7, 0, 0, 0⟩ :
        ForwardArgs ToyFloat)
      .identity .identity .identity rfl rfl rfl (by decide) (by decide) (by decide) (by decide)
      (by decide)).2.2.2.2⟩

/-! ## What the scalar forward step writes -/

/-- C10. The pack after the scalar forward step: the four gate values are replaced by
their activated values, `state`, `state_atv` and `output` are written, and
`prev_state`, `checkI`, `checkF`, `checkO` are as before the call. -/
theorem forward_lstm_frame {α : Type} [Add α] [Mul α]
    (activation : α → activation_mode_t → α) (a : ForwardArgs α)
    (node gate st : activation_mode_t) :
    forward.lstm activation a node gate st =
      { value_in := activation a.value_in node
        value_ig := activation (a.value_ig + a.prev_state * a.checkI) gate
        value_fg := activation (a.value_fg + a.prev_state * a.checkF) gate
        value_og := activation (a.value_og +
          (activation a.value_in node * activation (a.value_ig + a.prev_state * a.checkI) gate +
            a.prev_state * activation (a.value_fg + a.prev_state * a.checkF) gate) *
          a.checkO) gate
        prev_state := a.prev_state
        state := activation a.value_in node *
            activation (a.value_ig + a.prev_state * a.checkI) gate +
          a.prev_state * activation (a.value_fg + a.prev_state * a.checkF) gate
        state_atv := activation (activation a.value_in node *
            activation (a.value_ig + a.prev_state * a.checkI) gate +
          a.prev_state * activation (a.value_fg + a.prev_state * a.checkF) gate) st
        output := activation (a.value_og +
            (activation a.value_in node *
                activation (a.value_ig + a.prev_state * a.checkI) gate +
              a.prev_state * activation (a.value_fg + a.prev_state * a.checkF) gate) *
            a.checkO) gate *
          activation (activation a.value_in node *
              activation (a.value_ig + a.prev_state * a.checkI) gate +
            a.prev_state * activation (a.value_fg + a.prev_state * a.checkF) gate) st
        checkI := a.checkI
        checkF := a.checkF
        checkO := a.checkO } :=
  rfl

/-! ## What the scalar backward step reads and writes -/

/-- C11. Backward frame. After the scalar backward step `value_in`, `value_ig`,
`value_fg`, `value_og`, `prev_state`, `state`, `state_atv`, `output_grad`,
`checkI`, `checkF` and `checkO` hold what they held before the call; the pack
after the call is the pack before it with only `grad_og`, `state_grad`,
`grad_in`, `grad_ig`, `grad_fg`, `prev_state_grad`, `checkIGrad`, `checkFGrad`
and `checkOGrad` replaced. -/
theorem backward_lstm_frame {α : Type} [Add α] [Mul α]
    (activation : α → α → activation_mode_t → α) (a : BackwardArgs α)
    (node gate st : activation_mode_t) :
    (backward.lstm activation a node gate st).value_in = a.value_in ∧
    (backward.lstm activation a node gate st).value_ig = a.value_ig ∧
    (backward.lstm activation a node gate st).value_fg = a.value_fg ∧
    (backward.lstm activation a node gate st).value_og = a.value_og ∧
    (backward.lstm activation a node gate st).prev_state = a.prev_state ∧
    (backward.lstm activation a node gate st).state = a.state ∧
    (backward.lstm activation a node gate st).state_atv = a.state_atv ∧
    (backward.lstm activation a node gate st).output_grad = a.output_grad ∧
    (backward.lstm activation a node gate st).checkI = a.checkI ∧
    (backward.lstm activation a node gate st).checkF = a.checkF ∧
    (backward.lstm activation a node gate st).checkO = a.checkO ∧
    backward.lstm activation a node gate st =
      { a with
        grad_og := (backward.lstm activation a node gate st).grad_og
        state_grad := (backward.lstm activation a node gate st).state_grad
        grad_in := (backward.lstm activation a node gate st).grad_in
        grad_ig := (backward.lstm activation a node gate st).grad_ig
        grad_fg := (backward.lstm activation a node gate st).grad_fg
        prev_state_grad := (backward.lstm activation a node gate st).prev_state_grad
        checkIGrad := (backward.lstm activation a node gate st).checkIGrad
        checkFGrad := (backward.lstm activation a node gate st).checkFGrad
        checkOGrad := (backward.lstm activation a node gate st).checkOGrad } :=
  ⟨rfl, rfl, rfl, rfl, rfl, rfl, rfl, rfl, rfl, rfl, rfl, rfl⟩

/-- C12. The incoming `state_grad` is the only written argument the scalar backward
step reads. Two packs that agree on `value_in`, `value_ig`, `value_fg`,
`value_og`, `prev_state`, `state`, `state_atv`, `output_grad`, `checkI`, `checkF`,
`checkO` and on the incoming `state_grad` give the same pack after the call, in
particular the same nine results, whatever `grad_in`, `grad_ig`, `grad_fg`,
`grad_og`, `prev_state_grad`, `checkIGrad`, `checkFGrad`, `checkOGrad` held. -/
theorem backward_lstm_reads_only_state_grad {α : Type} [Add α] [Mul α]
    (activation : α → α → activation_mode_t → α) (a b : BackwardArgs α)
    (node gate st : activation_mode_t)
    (h_in : a.value_in = b.value_in) (h_ig : a.value_ig = b.value_ig)
    (h_fg : a.value_fg = b.value_fg) (h_og : a.value_og = b.value_og)
    (h_prev : a.prev_state = b.prev_state) (h_state : a.state = b.state)
    (h_atv : a.state_atv = b.state_atv) (h_outg : a.output_grad = b.output_grad)
    (h_cI : a.checkI = b.checkI) (h_cF : a.checkF = b.checkF) (h_cO : a.checkO = b.checkO)
    (h_sg : a.state_grad = b.state_grad) :
    backward.lstm activation a node gate st = backward.lstm activation b node gate st := by
  simp only [backward.lstm, h_in, h_ig, h_fg, h_og, h_prev, h_state, h_atv, h_outg, h_cI, h_cF,
    h_cO, h_sg]

/-- Witness for C12: two integer packs that differ in every slot the step only
writes (`0` against `9`, `8`, `7`, ...). -/
theorem backward_lstm_reads_only_state_grad_witness :
    backward.lstm linActivationGrad
        (⟨3, 14, 26, 352, 0, 0, 0, 0, 5, 0, 172, 50, 172, 6, 1, 2, 1, 0, 0, 0⟩ : BackwardArgs ℤ)
        .tanh .sigmoid .identity =
      backward.lstm linActivationGrad
        (⟨3, 14, 26, 352, 9, 8, 7, 6, 5, 4, 172, 50, 172, 6, 1, 2, 1, 3, 2, 1⟩ : BackwardArgs ℤ)
        .tanh .sigmoid .identity :=
  backward_lstm_reads_only_state_grad linActivationGrad
    ⟨3, 14, 26, 352, 0, 0, 0, 0, 5, 0, 172, 50, 172, 6, 1, 2, 1, 0, 0, 0⟩
    ⟨3, 14, 26, 352, 9, 8, 7, 6, 5, 4, 172, 50, 172, 6, 1, 2, 1, 3, 2, 1⟩
    .tanh .sigmoid .identity rfl rfl rfl rfl rfl rfl rfl rfl rfl rfl rfl rfl

/-- C13. Forward determinism. Two packs that agree on the four incoming gate values,
on `prev_state` and on the three peephole weights give, for the same selectors,
the same pack after the scalar forward step (activated gates, `state`,
`state_atv`, `output`), whatever `state`, `state_atv` and `output` held. -/
theorem forward_lstm_deterministic {α : Type} [Add α] [Mul α]
    (activation : α → activation_mode_t → α) (a b : ForwardArgs α)
    (node gate st : activation_mode_t)
    (h_in : a.value_in = b.value_in) (h_ig : a.value_ig = b.value_ig)
    (h_fg : a.value_fg = b.value_fg) (h_og : a.value_og = b.value_og)
    (h_prev : a.prev_state = b.prev_state)
    (h_cI : a.checkI = b.checkI) (h_cF : a.checkF = b.checkF) (h_cO : a.checkO = b.checkO) :
    forward.lstm activation a node gate st = forward.lstm activation b node gate st := by
  simp only [forward.lstm, h_in, h_ig, h_fg, h_og, h_prev, h_cI, h_cF, h_cO]

/-- Witness for C13: two integer packs that differ in the incoming `state`,
`state_atv` and `output`. -/
theorem forward_lstm_deterministic_witness :
    forward.lstm linActivation (⟨1, 2, 3, 4, 5, 0, 0, 0, 1, 2, 1⟩ : ForwardArgs ℤ)
        .tanh .sigmoid .identity =
      forward.lstm linActivation (⟨1, 2, 3, 4, 5, 7, 8, 9, 1, 2, 1⟩ : ForwardArgs ℤ)
        .tanh .sigmoid .identity :=
  forward_lstm_deterministic linActivation ⟨1, 2, 3, 4, 5, 0, 0, 0, 1, 2, 1⟩
    ⟨1, 2, 3, 4, 5, 7, 8, 9, 1, 2, 1⟩ .tanh .sigmoid .identity rfl rfl rfl rfl rfl rfl rfl rfl

/-! ## Further reductions of the scalar steps -/

/-- C14, as stated, fails where a product with a zero peephole weight is not zero. In
the toy IEEE model with identity derivative forms, zero peephole weights and the
finite inputs `output_grad = 100`, `state_atv = 2`, `value_og = 1`,
`state_grad = 0`: `grad_og = 100*2` overflows to infinity, `inf*0` is NaN, and
the step returns `state_grad = NaN`, not `0 + 100*1 = 100`. -/
theorem backward_lstm_zero_peephole_counterexample :
    (backward.lstm idActivationGrad
      (⟨.fin 1, .fin 1, .fin 1, .fin 1, .fin 9, .fin 9, .fin 9, .fin 9, .fin 1, .fin 9, .fin 1,
        .fin 0, .fin 2, .fin 100, 0, 0, 0, .fin 9, .fin 9, .fin 9⟩ : BackwardArgs ToyFloat)
      .identity .identity .identity).grad_og = .inf false ∧
    (backward.lstm idActivationGrad
      (⟨.fin 1, .fin 1, .fin 1, .fin 1, .fin 9, .fin 9, .fin 9, .fin 9, .fin 1, .fin 9, .fin 1,
        .fin 0, .fin 2, .fin 100, 0, 0, 0, .fin 9, .fin 9, .fin 9⟩ : BackwardArgs ToyFloat)
      .identity .identity .identity).state_grad = .nan ∧
    (backward.lstm idActivationGrad
      (⟨.fin 1, .fin 1, .fin 1, .fin 1, .fin 9, .fin 9, .fin 9, .fin 9, .fin 1, .fin 9, .fin 1,
        .fin 0, .fin 2, .fin 100, 0, 0, 0, .fin 9, .fin 9, .fin 9⟩ : BackwardArgs ToyFloat)
      .identity .identity .identity).state_grad ≠
      .fin 0 + idActivationGrad (.fin 100 * .fin 1) (.fin 2) .identity := by
  decide

/-- C14, amended. Zero-peephole reduction of the backward step. When
`checkI = checkF = checkO = 0` and the input is one at which the returned
`grad_og`, `grad_ig` and `grad_fg` times `0` are `0` and adding `0` changes
nothing in the two sums (every input in exact arithmetic), the state gradient
after the call is `state_grad + activation(output_grad*value_og, state_atv,
state selector)` and `prev_state_grad` is that state gradient times `value_fg`;
the peephole gradients are still `grad_ig*prev_state`, `grad_fg*prev_state` and
`grad_og*state`. -/
theorem backward_lstm_zero_peephole {α : Type} [Zero α] [Add α] [Mul α]
    (activation : α → α → activation_mode_t → α) (a : BackwardArgs α)
    (node gate st : activation_mode_t)
    (hI : a.checkI = 0) (hF : a.checkF = 0) (hO : a.checkO = 0)
    (hgo : (backward.lstm activation a node gate st).grad_og * 0 = 0)
    (hgi : (backward.lstm activation a node gate st).grad_ig * 0 = 0)
    (hgf : (backward.lstm activation a node gate st).grad_fg * 0 = 0)
    (hA : activation (a.output_grad * a.value_og) a.state_atv st + 0 =
      activation (a.output_grad * a.value_og) a.state_atv st)
    (h00 : (0 : α) + 0 = 0)
    (h0p : 0 + (backward.lstm activation a node gate st).state_grad * a.value_fg =
      (backward.lstm activation a node gate st).state_grad * a.value_fg) :
    (backward.lstm activation a node gate st).state_grad =
      a.state_grad + activation (a.output_grad * a.value_og) a.state_atv st ∧
    (backward.lstm activation a node gate st).prev_state_grad =
      (backward.lstm activation a node gate st).state_grad * a.value_fg ∧
    (backward.lstm activation a node gate st).checkIGrad =
      (backward.lstm activation a node gate st).grad_ig * a.prev_state ∧
    (backward.lstm activation a node gate st).checkFGrad =
      (backward.lstm activation a node gate st).grad_fg * a.prev_state ∧
    (backward.lstm activation a node gate st).checkOGrad =
      (backward.lstm activation a node gate st).grad_og * a.state := by
  have hsg : (backward.lstm activation a node gate st).state_grad =
      a.state_grad + activation (a.output_grad * a.value_og) a.state_atv st := by
    show a.state_grad + (activation (a.output_grad * a.value_og) a.state_atv st +
      (backward.lstm activation a node gate st).grad_og * a.checkO) = _
    rw [hO, hgo, hA]
  have hps : (backward.lstm activation a node gate st).prev_state_grad =
      (backward.lstm activation a node gate st).state_grad * a.value_fg := by
    show (backward.lstm activation a node gate st).grad_ig * a.checkI +
        (backward.lstm activation a node gate st).grad_fg * a.checkF +
        (backward.lstm activation a node gate st).state_grad * a.value_fg = _
    rw [hI, hF, hgi, hgf, h00, h0p]
  exact ⟨hsg, hps, rfl, rfl, rfl⟩

/-- Witness for C14, amended: the toy IEEE model at finite inputs that do not
overflow; the state gradient after the call is `7 + 3*5 = 22` and
`prev_state_grad` is `22*2 = 44`. -/
theorem backward_lstm_zero_peephole_witness :
    (backward.lstm idActivationGrad
      (⟨.fin 3, .fin 4, .fin 2, .fin 5, .fin 9, .fin 9, .fin 9, .fin 9, .fin 1, .fin 9, .fin 6,
        .fin 7, .fin 2, .fin 3, 0, 0, 0, .fin 9, .fin 9, .fin 9⟩ : BackwardArgs ToyFloat)
      .identity .identity .identity).state_grad = .fin 7 + idActivationGrad (.fin 3 * .fin 5)
        (.fin 2) .identity ∧
    (backward.lstm idActivationGrad
      (⟨.fin 3, .fin 4, .fin 2, .fin 5, .fin 9, .fin 9, .fin 9, .fin 9, .fin 1, .fin 9, .fin 6,
        .fin 7, .fin 2, .fin 3, 0, 0, 0, .fin 9, .fin 9, .fin 9⟩ : BackwardArgs ToyFloat)
      .identity .identity .identity).prev_state_grad =
      (backward.lstm idActivationGrad
        (⟨.fin 3, .fin 4, .fin 2, .fin 5, .fin 9, .fin 9, .fin 9, .fin 9, .fin 1, .fin 9, .fin 6,
        .fin 7, .fin 2, .fin 3, 0, 0, 0, .fin 9, .fin 9, .fin 9⟩ : BackwardArgs ToyFloat)
        .identity .identity .identity).state_grad * .fin 2 :=
  ⟨(backward_lstm_zero_peephole idActivationGrad
      (⟨.fin 3, .fin 4, .fin 2, .fin 5, .fin 9, .fin 9, .fin 9, .fin 9, .fin 1, .fin 9, .fin 6,
        .fin 7, .fin 2, .fin 3, 0, 0, 0, .fin 9, .fin 9, .fin 9⟩ : BackwardArgs ToyFloat)
      .identity .identity .identity rfl rfl rfl (by decide) (by decide) (by decide) (by decide)
      (by decide) (by decide)).1,
    (backward_lstm_zero_peephole idActivationGrad
      (⟨.fin 3, .fin 4, .fin 2, .fin 5, .fin 9, .fin 9, .fin 9, .fin 9, .fin 1, .fin 9, .fin 6,
        .fin 7, .fin 2, .fin 3, 0, 0, 0, .fin 9, .fin 9, .fin 9⟩ : BackwardArgs ToyFloat)
      .identity .identity .identity rfl rfl rfl (by decide) (by decide) (by decide) (by decide)
      (by decide) (by decide)).2.1⟩

/-- C15. Identity-activation polynomial form. With all three selectors set to identity
and an activation that is the identity map for it, the scalar forward step
returns `state = value_in*(value_ig + prev_state*checkI) +
prev_state*(value_fg + prev_state*checkF)`, `state_atv = state` and
`output = (value_og + state*checkO)*state`. -/
theorem forward_lstm_identity_polynomial {α : Type} [Add α] [Mul α]
    (activation : α → activation_mode_t → α)
    (hid : ∀ x, activation x .identity = x) (a : ForwardArgs α) :
    (forward.lstm activation a .identity .identity .identity).state =
      a.value_in * (a.value_ig + a.prev_state * a.checkI) +
        a.prev_state * (a.value_fg + a.prev_state * a.checkF) ∧
    (forward.lstm activation a .identity .identity .identity).state_atv =
      (forward.lstm activation a .identity .identity .identity).state ∧
    (forward.lstm activation a .identity .identity .identity).output =
      (a.value_og + (forward.lstm activation a .identity .identity .identity).state * a.checkO) *
        (forward.lstm activation a .identity .identity .identity).state := by
  simp only [forward.lstm, hid, and_self]

/-- Witness for C15: rationals and the stand-in activation; the state is
`1*(2 + 5*1) + 5*(3 + 5*2) = 72` and the output `(4 + 72*1)*72 = 5472`. -/
theorem forward_lstm_identity_polynomial_witness :
    (∀ x : ℚ, linActivation x .identity = x) ∧
    (forward.lstm linActivation (⟨1, 2, 3, 4, 5, 7, 7, 7, 1, 2, 1⟩ : ForwardArgs ℚ)
      .identity .identity .identity).state = 1 * (2 + 5 * 1) + 5 * (3 + 5 * 2) ∧
    (forward.lstm linActivation (⟨1, 2, 3, 4, 5, 7, 7, 7, 1, 2, 1⟩ : ForwardArgs ℚ)
      .identity .identity .identity).state_atv =
      (forward.lstm linActivation (⟨1, 2, 3, 4, 5, 7, 7, 7, 1, 2, 1⟩ : ForwardArgs ℚ)
        .identity .identity .identity).state :=
  ⟨fun _ => rfl,
    (forward_lstm_identity_polynomial linActivation (fun _ => rfl)
      ⟨1, 2, 3, 4, 5, 7, 7, 7, 1, 2, 1⟩).1,
    (forward_lstm_identity_polynomial linActivation (fun _ => rfl)
      ⟨1, 2, 3, 4, 5, 7, 7, 7, 1, 2, 1⟩).2.1⟩

/-- C18, as stated, fails where a product with the zero previous state is not zero.
In the toy IEEE model with identity activations and `prev_state = 0`: forward,
`checkI = inf` gives `0*inf = NaN` and `state = NaN`, not
`activation(value_in, node)*activation(value_ig, gate) = 1*2`; backward, at the
finite inputs `state_grad = 100`, `value_in = 4`, `output_grad = 0`, the gradient
`grad_ig = 100*4` overflows to infinity and `checkIGrad = inf*0` is NaN, not `0`. -/
theorem lstm_first_timestep_counterexample :
    (forward.lstm idActivation
      (⟨.fin 1, .fin 2, .fin 3, .fin 4, 0, .fin 7, .fin 7, .fin 7, .inf false, .fin 0, .fin 0⟩ :
        ForwardArgs ToyFloat)
      .identity .identity .identity).state = .nan ∧
    (forward.lstm idActivation
      (⟨.fin 1, .fin 2, .fin 3, .fin 4, 0, .fin 7, .fin 7, .fin 7, .inf false, .fin 0, .fin 0⟩ :
        ForwardArgs ToyFloat)
      .identity .identity .identity).state ≠
      idActivation (.fin 1) .identity * idActivation (.fin 2) .identity ∧
    (backward.lstm idActivationGrad
      (⟨.fin 4, .fin 1, .fin 1, .fin 1, .fin 9, .fin 9, .fin 9, .fin 9, 0, .fin 9, .fin 1,
        .fin 100, .fin 1, .fin 0, .fin 1, .fin 1, .fin 1, .fin 9, .fin 9, .fin 9⟩ :
        BackwardArgs ToyFloat)
      .identity .identity .identity).grad_ig = .inf false ∧
    (backward.lstm idActivationGrad
      (⟨.fin 4, .fin 1, .fin 1, .fin 1, .fin 9, .fin 9, .fin 9, .fin 9, 0, .fin 9, .fin 1,
        .fin 100, .fin 1, .fin 0, .fin 1, .fin 1, .fin 1, .fin 9, .fin 9, .fin 9⟩ :
        BackwardArgs ToyFloat)
      .identity .identity .identity).checkIGrad = .nan ∧
    (backward.lstm idActivationGrad
      (⟨.fin 4, .fin 1, .fin 1, .fin 1, .fin 9, .fin 9, .fin 9, .fin 9, 0, .fin 9, .fin 1,
        .fin 100, .fin 1, .fin 0, .fin 1, .fin 1, .fin 1, .fin 9, .fin 9, .fin 9⟩ :
        BackwardArgs ToyFloat)
      .identity .identity .identity).checkIGrad ≠ 0 := by
  decide

/-- C18, amended. First timestep. When `prev_state = 0` and the inputs are such that
the products with that zero are zero (`0*checkI`, `0` times the activated forget
gate, and the returned `state_grad`, `grad_ig`, `grad_fg` times `0`) and adding
`0` changes nothing in `value_ig + 0` and in the state sum (every input in exact
arithmetic): the scalar forward step returns
`state = activation(value_in, node)*activation(value_ig, gate)`, in which the
incoming forget gate, `checkI` and `checkF` do not occur; and the scalar backward
step returns `checkIGrad = 0`, `checkFGrad = 0` and
`grad_fg = activation(0, value_fg, gate)`. -/
theorem lstm_first_timestep {α : Type} [Zero α] [Add α] [Mul α]
    (activation : α → activation_mode_t → α) (gradient : α → α → activation_mode_t → α)
    (a : ForwardArgs α) (b : BackwardArgs α) (node gate st : activation_mode_t)
    (ha : a.prev_state = 0) (hb : b.prev_state = 0)
    (hcI : 0 * a.checkI = 0)
    (hig : a.value_ig + 0 = a.value_ig)
    (hfg : 0 * (forward.lstm activation a node gate st).value_fg = 0)
    (hst : activation a.value_in node * activation a.value_ig gate + 0 =
      activation a.value_in node * activation a.value_ig gate)
    (hsg : (backward.lstm gradient b node gate st).state_grad * 0 = 0)
    (hgi : (backward.lstm gradient b node gate st).grad_ig * 0 = 0)
    (hgf : (backward.lstm gradient b node gate st).grad_fg * 0 = 0) :
    (forward.lstm activation a node gate st).state =
      activation a.value_in node * activation a.value_ig gate ∧
    (backward.lstm gradient b node gate st).checkIGrad = 0 ∧
    (backward.lstm gradient b node gate st).checkFGrad = 0 ∧
    (backward.lstm gradient b node gate st).grad_fg = gradient 0 b.value_fg gate := by
  have hvig : (forward.lstm activation a node gate st).value_ig = activation a.value_ig gate := by
    show activation (a.value_ig + a.prev_state * a.checkI) gate = _
    rw [ha, hcI, hig]
  refine ⟨?_, ?_, ?_, ?_⟩
  · show activation a.value_in node * (forward.lstm activation a node gate st).value_ig +
      a.prev_state * (forward.lstm activation a node gate st).value_fg = _
    rw [hvig, ha, hfg, hst]
  · show (backward.lstm gradient b node gate st).grad_ig * b.prev_state = 0
    rw [hb, hgi]
  · show (backward.lstm gradient b node gate st).grad_fg * b.prev_state = 0
    rw [hb, hgf]
  · show gradient ((backward.lstm gradient b node gate st).state_grad * b.prev_state) b.value_fg gate = _
    rw [hb, hsg]

/-- Witness for C18, amended: the toy IEEE model at finite inputs that do not
overflow, with non-zero `checkI` and `checkF`; the forward state is `1*2 = 2`. -/
theorem lstm_first_timestep_witness :
    (forward.lstm idActivation
      (⟨.fin 1, .fin 2, .fin 3, .fin 4, 0, .fin 7, .fin 7, .fin 7, .fin 5, .fin 6, .fin 1⟩ :
        ForwardArgs ToyFloat)
      .identity .identity .identity).state = .fin 1 * .fin 2 ∧
    (backward.lstm idActivationGrad
      (⟨.fin 4, .fin 1, .fin 1, .fin 1, .fin 9, .fin 9, .fin 9, .fin 9, 0, .fin 9, .fin 1,
        .fin 5, .fin 1, .fin 2, .fin 1, .fin 1, .fin 1, .fin 9, .fin 9, .fin 9⟩ :
        BackwardArgs ToyFloat)
      .identity .identity .identity).checkIGrad = 0 ∧
    (backward.lstm idActivationGrad
      (⟨.fin 4, .fin 1, .fin 1, .fin 1, .fin 9, .fin 9, .fin 9, .fin 9, 0, .fin 9, .fin 1,
        .fin 5, .fin 1, .fin 2, .fin 1, .fin 1, .fin 1, .fin 9, .fin 9, .fin 9⟩ :
        BackwardArgs ToyFloat)
      .identity .identity .identity).checkFGrad = 0 ∧
    (backward.lstm idActivationGrad
      (⟨.fin 4, .fin 1, .fin 1, .fin 1, .fin 9, .fin 9, .fin 9, .fin 9, 0, .fin 9, .fin 1,
        .fin 5, .fin 1, .fin 2, .fin 1, .fin 1, .fin 1, .fin 9, .fin 9, .fin 9⟩ :
        BackwardArgs ToyFloat)
      .identity .identity .identity).grad_fg = idActivationGrad 0 (.fin 1) .identity :=
  lstm_first_timestep idActivation idActivationGrad
    (⟨.fin 1, .fin 2, .fin 3, .fin 4, 0, .fin 7, .fin 7, .fin 7, .fin 5, .fin 6, .fin 1⟩ :
      ForwardArgs ToyFloat)
    (⟨.fin 4, .fin 1, .fin 1, .fin 1, .fin 9, .fin 9, .fin 9, .fin 9, 0, .fin 9, .fin 1,
      .fin 5, .fin 1, .fin 2, .fin 1, .fin 1, .fin 1, .fin 9, .fin 9, .fin 9⟩ :
      BackwardArgs ToyFloat)
    .identity .identity .identity rfl rfl (by decide) (by decide) (by decide) (by decide)
    (by decide) (by decide) (by decide)

/-! ## The vector-path flag -/

/-- C16. The flag `avx` in a build without `__NVCC__`. Without `__AVX__` the flag of
`forward::lstm<T>` and of `backward::lstm<T>` is `false` for every element type
`T`; with `__AVX__` it is `true` exactly when `T` is `float`, so `false` for
`double`; and the forward and the backward flag agree in every build. -/
theorem lstm_avx_flag :
    (∀ T, forward.lstm.avx false false T = some false ∧
      backward.lstm.avx false false T = some false) ∧
    (∀ T, (forward.lstm.avx false true T = some true ↔ T = ElemType.float) ∧
      (forward.lstm.avx false true T = some false ↔ T ≠ ElemType.float) ∧
      (backward.lstm.avx false true T = some true ↔ T = ElemType.float) ∧
      (backward.lstm.avx false true T = some false ↔ T ≠ ElemType.float)) ∧
    (forward.lstm.avx false true ElemType.double = some false ∧
      backward.lstm.avx false true ElemType.double = some false) ∧
    (∀ defined_NVCC defined_AVX T,
      forward.lstm.avx defined_NVCC defined_AVX T =
        backward.lstm.avx defined_NVCC defined_AVX T) := by
  refine ⟨fun T => ⟨rfl, rfl⟩, fun T => ?_, ⟨rfl, rfl⟩, fun _ _ _ => rfl⟩
  simp [forward.lstm.avx, backward.lstm.avx, is_same_float]

/-! ## Linearity of the scalar backward step -/

/-- C17, as stated, fails in rounded arithmetic. In the toy rounded format with the
derivative form `activation(g, v, sel) = g * 1`, `state_atv = 5` and the scale
`3` at `output_grad = 3`, `state_grad = 0`: the step at the scaled pair returns
`grad_og = ((3*3)*5)*1 = 40` (`3*3 = 9` rounds to `8`), while `3` times the
`grad_og` at the unscaled pair is `3*((3*5)*1) = 42` (`15` rounds to `14`). -/
theorem backward_lstm_linear_counterexample :
    (∀ (g v : RoundedInt) (m : activation_mode_t),
      (fun g _ _ => g * (⟨1⟩ : RoundedInt)) g v m = g * (fun _ _ => (⟨1⟩ : RoundedInt)) v m) ∧
    (backward.lstm (fun g _ _ => g * (⟨1⟩ : RoundedInt))
        { (⟨⟨1⟩, ⟨1⟩, ⟨1⟩, ⟨1⟩, ⟨0⟩, ⟨0⟩, ⟨0⟩, ⟨0⟩, ⟨1⟩, ⟨0⟩, ⟨1⟩, ⟨0⟩, ⟨5⟩, ⟨0⟩, ⟨1⟩, ⟨1⟩, ⟨1⟩,
          ⟨0⟩, ⟨0⟩, ⟨0⟩⟩ : BackwardArgs RoundedInt) with
          output_grad := ⟨3⟩ * ⟨3⟩, state_grad := ⟨3⟩ * ⟨0⟩ }
        .identity .identity .identity).grad_og = ⟨40⟩ ∧
    ⟨3⟩ * (backward.lstm (fun g _ _ => g * (⟨1⟩ : RoundedInt))
        { (⟨⟨1⟩, ⟨1⟩, ⟨1⟩, ⟨1⟩, ⟨0⟩, ⟨0⟩, ⟨0⟩, ⟨0⟩, ⟨1⟩, ⟨0⟩, ⟨1⟩, ⟨0⟩, ⟨5⟩, ⟨0⟩, ⟨1⟩, ⟨1⟩, ⟨1⟩,
          ⟨0⟩, ⟨0⟩, ⟨0⟩⟩ : BackwardArgs RoundedInt) with
          output_grad := ⟨3⟩, state_grad := ⟨0⟩ }
        .identity .identity .identity).grad_og = ⟨42⟩ ∧
    (backward.lstm (fun g _ _ => g * (⟨1⟩ : RoundedInt))
        { (⟨⟨1⟩, ⟨1⟩, ⟨1⟩, ⟨1⟩, ⟨0⟩, ⟨0⟩, ⟨0⟩, ⟨0⟩, ⟨1⟩, ⟨0⟩, ⟨1⟩, ⟨0⟩, ⟨5⟩, ⟨0⟩, ⟨1⟩, ⟨1⟩, ⟨1⟩,
          ⟨0⟩, ⟨0⟩, ⟨0⟩⟩ : BackwardArgs RoundedInt) with
          output_grad := ⟨3⟩ * ⟨3⟩, state_grad := ⟨3⟩ * ⟨0⟩ }
        .identity .identity .identity).results ≠
      List.map (fun x => ⟨3⟩ * x)
        (backward.lstm (fun g _ _ => g * (⟨1⟩ : RoundedInt))
        { (⟨⟨1⟩, ⟨1⟩, ⟨1⟩, ⟨1⟩, ⟨0⟩, ⟨0⟩, ⟨0⟩, ⟨0⟩, ⟨1⟩, ⟨0⟩, ⟨1⟩, ⟨0⟩, ⟨5⟩, ⟨0⟩, ⟨1⟩, ⟨1⟩, ⟨1⟩,
          ⟨0⟩, ⟨0⟩, ⟨0⟩⟩ : BackwardArgs RoundedInt) with
          output_grad := ⟨3⟩, state_grad := ⟨0⟩ }
        .identity .identity .identity).results := by
  refine ⟨fun _ _ _ => rfl, by decide, by decide, by decide⟩

/-- C17, amended. Linearity of the backward step in the incoming gradients, in exact
arithmetic (a commutative semiring). If the derivative form is
`activation(g, v, sel) = g * d(v, sel)`, then for fixed forward quantities,
peepholes and selectors the nine results are additive in the pair
`(output_grad, state_grad)`, scale with it, and are all `0` when
`output_grad = 0` and `state_grad = 0`. -/
theorem backward_lstm_linear {α : Type} [CommSemiring α]
    (activation : α → α → activation_mode_t → α) (d : α → activation_mode_t → α)
    (hlin : ∀ g v m, activation g v m = g * d v m)
    (a : BackwardArgs α) (node gate st : activation_mode_t) (og₁ sg₁ og₂ sg₂ c : α) :
    (backward.lstm activation { a with output_grad := og₁ + og₂, state_grad := sg₁ + sg₂ }
        node gate st).results =
      List.zipWith (fun x y => x + y)
        (backward.lstm activation { a with output_grad := og₁, state_grad := sg₁ }
        node gate st).results
        (backward.lstm activation { a with output_grad := og₂, state_grad := sg₂ }
        node gate st).results ∧
    (backward.lstm activation { a with output_grad := c * og₁, state_grad := c * sg₁ }
        node gate st).results =
      List.map (fun x => c * x)
        (backward.lstm activation { a with output_grad := og₁, state_grad := sg₁ }
        node gate st).results ∧
    (backward.lstm activation { a with output_grad := 0, state_grad := 0 }
        node gate st).results =
      [0, 0, 0, 0, 0, 0, 0, 0, 0] := by
  refine ⟨?_, ?_, ?_⟩
  · simp only [backward.lstm, BackwardArgs.results, hlin, List.zipWith, List.cons.injEq,
      and_true]
    refine ⟨?_, ?_, ?_, ?_, ?_, ?_, ?_, ?_, ?_⟩ <;> ring
  · simp only [backward.lstm, BackwardArgs.results, hlin, List.map, List.cons.injEq, and_true]
    refine ⟨?_, ?_, ?_, ?_, ?_, ?_, ?_, ?_, ?_⟩ <;> ring
  · simp [backward.lstm, BackwardArgs.results, hlin]

/-- Witness for C17, amended: integers and the stand-in derivative form, whose
factor is the slope of the selector; the gradient pairs are `(1, 10)` and
`(2, 20)`, the scale is `7`. -/
theorem backward_lstm_linear_witness :
    (∀ (g v : ℤ) m, linActivationGrad g v m = g * (fun _ m => slopeOf m) v m) ∧
    (backward.lstm linActivationGrad
        { (⟨3, 14, 26, 352, 9, 9, 9, 9, 5, 9, 172, 0, 172, 0, 1, 2, 1, 9, 9, 9⟩ : BackwardArgs ℤ) with
          output_grad := 1 + 2, state_grad := 10 + 20 }
        .tanh .sigmoid .identity).results =
      List.zipWith (fun x y => x + y)
        (backward.lstm linActivationGrad
        { (⟨3, 14, 26, 352, 9, 9, 9, 9, 5, 9, 172, 0, 172, 0, 1, 2, 1, 9, 9, 9⟩ : BackwardArgs ℤ) with
          output_grad := 1, state_grad := 10 }
        .tanh .sigmoid .identity).results
        (backward.lstm linActivationGrad
        { (⟨3, 14, 26, 352, 9, 9, 9, 9, 5, 9, 172, 0, 172, 0, 1, 2, 1, 9, 9, 9⟩ : BackwardArgs ℤ) with
          output_grad := 2, state_grad := 20 }
        .tanh .sigmoid .identity).results ∧
    (backward.lstm linActivationGrad
        { (⟨3, 14, 26, 352, 9, 9, 9, 9, 5, 9, 172, 0, 172, 0, 1, 2, 1, 9, 9, 9⟩ : BackwardArgs ℤ) with
          output_grad := 7 * 1, state_grad := 7 * 10 }
        .tanh .sigmoid .identity).results =
      List.map (fun x => 7 * x)
        (backward.lstm linActivationGrad
        { (⟨3, 14, 26, 352, 9, 9, 9, 9, 5, 9, 172, 0, 172, 0, 1, 2, 1, 9, 9, 9⟩ : BackwardArgs ℤ) with
          output_grad := 1, state_grad := 10 }
        .tanh .sigmoid .identity).results :=
  ⟨fun g v m => by cases m <;> simp [linActivationGrad, slopeOf],
    (backward_lstm_linear linActivationGrad (fun _ m => slopeOf m)
      (fun g v m => by cases m <;> simp [linActivationGrad, slopeOf])
      ⟨3, 14, 26, 352, 9, 9, 9, 9, 5, 9, 172, 0, 172, 0, 1, 2, 1, 9, 9, 9⟩
      .tanh .sigmoid .identity 1 10 2 20 7).1,
    (backward_lstm_linear linActivationGrad (fun _ m => slopeOf m)
      (fun g v m => by cases m <;> simp [linActivationGrad, slopeOf])
      ⟨3, 14, 26, 352, 9, 9, 9, 9, 5, 9, 172, 0, 172, 0, 1, 2, 1, 9, 9, 9⟩
      .tanh .sigmoid .identity 1 10 2 20 7).2.1⟩

end paddle.operators.math.detail
